import Mathlib

/-!
Verification of the RESTORE model-construction core.

The development shallowly embeds the parts of the repository that the checked
properties concern:

* `gen_utils/cnf_tools.py` (`ConfigHandler` and its getter families);
* `model_utils/initialisation.py` (`_c_io_balance`, the global per-flow balance
  declared by `init_model`);
* `model_utils/generic.py` (namespace `ModelUtils` below): balance, capacity
  lifecycle, ramp, load-factor constraint generators and the initialisation
  helpers;
* `model_generic/generic_constraints.py` (namespace `ModelGeneric` below): the
  second, divergent variant of the same constraint library;
* `gen_utils/k_clustering.py` (`get_demand_shape`'s correction step).

Numeric values are embedded as exact rationals (`ℚ`).  A Pyomo constraint
returned by a generator is embedded as the relation it states, with both sides
already evaluated under an explicit assignment of values to the model
variables (`ModelVars` / `ModelVarsN`); the `Skip` sentinel is a distinct
constructor.  Python exceptions are embedded with `Except`.
-/

namespace Restore

/-- Kinds of Python exception relevant here: `KeyError` (missing dictionary
key), `ValueError` (explicit raise on a NaN annual cell), `TypeError`
(arithmetic on `None`). -/
inductive PyErr
  | keyError
  | valueError
  | typeError
deriving DecidableEq, Repr

instance {ε α : Type} [DecidableEq ε] [DecidableEq α] : DecidableEq (Except ε α) := fun x y =>
  match x, y with
  | .ok a, .ok b =>
    if h : a = b then .isTrue (by rw [h]) else .isFalse (fun hc => h (Except.ok.inj hc))
  | .error a, .error b =>
    if h : a = b then .isTrue (by rw [h]) else .isFalse (fun hc => h (Except.error.inj hc))
  | .ok _, .error _ => .isFalse (fun hc => Except.noConfusion hc)
  | .error _, .ok _ => .isFalse (fun hc => Except.noConfusion hc)

/-- Association-list lookup (embeds a Python `dict[...]` access). -/
def lookupA {α β : Type} [DecidableEq α] : List (α × β) → α → Option β
  | [], _ => none
  | (k, v) :: rest, key => if key = k then some v else lookupA rest key

/-- A stored configuration cell: `none` embeds an empty (NaN) cell. -/
abbrev Cell := Option ℚ

/-- Per-entity parameter tables of `ConfigHandler` (`cnf_tools.py`, `__init__`):
one association list per value-kind, keyed as in the source
(`annual` by `(parameter, year)`, `constant` by `parameter`,
`constant_fxe` by `(parameter, flow)`, `configuration` by `parameter`). -/
structure EntityParams where
  annual : List ((String × ℚ) × Cell)
  constant : List (String × Cell)
  constant_fxe : List ((String × String) × Cell)
  configuration : List (String × Cell)

/-- `gen_utils/cnf_tools.py`, class `ConfigHandler`: the per-entity tables. -/
structure ConfigHandler where
  params : List (String × EntityParams)

/-- `ConfigHandler.get_const`: `KeyError` on a missing entity or parameter key;
a present-but-empty (NaN) cell yields `None` (here `none`) without raising. -/
def ConfigHandler.get_const (cnf : ConfigHandler) (entity_id parameter : String) :
    Except PyErr Cell :=
  match lookupA cnf.params entity_id with
  | none => .error .keyError
  | some ep =>
    match lookupA ep.constant parameter with
    | none => .error .keyError
    | some v => .ok v

/-- `ConfigHandler.get_const_fxe`: `KeyError` on a missing `(parameter, flow)`
key; a present-but-empty cell yields `None` without raising. -/
def ConfigHandler.get_const_fxe (cnf : ConfigHandler) (entity_id parameter flow : String) :
    Except PyErr Cell :=
  match lookupA cnf.params entity_id with
  | none => .error .keyError
  | some ep =>
    match lookupA ep.constant_fxe (parameter, flow) with
    | none => .error .keyError
    | some v => .ok v

/-- `ConfigHandler.get_annual`: `KeyError` on a missing `(parameter, year)`
key and `ValueError` on a present-but-empty (NaN) cell. -/
def ConfigHandler.get_annual (cnf : ConfigHandler) (entity_id parameter : String) (year : ℚ) :
    Except PyErr ℚ :=
  match lookupA cnf.params entity_id with
  | none => .error .keyError
  | some ep =>
    match lookupA ep.annual (parameter, year) with
    | none => .error .keyError
    | some none => .error .valueError
    | some (some v) => .ok v

/-- `ConfigHandler.check_cnf`: `KeyError` on a missing key; an empty (NaN)
cell means disabled (`false`), a non-empty cell means enabled. -/
def ConfigHandler.check_cnf (cnf : ConfigHandler) (entity_id parameter : String) :
    Except PyErr Bool :=
  match lookupA cnf.params entity_id with
  | none => .error .keyError
  | some ep =>
    match lookupA ep.configuration parameter with
    | none => .error .keyError
    | some v => .ok v.isSome

/-- C7: for an empty (NaN) stored cell, `get_annual` raises (`ValueError`)
while `get_const` returns the absent sentinel without raising; for the
flow-keyed `get_const_fxe`, a missing `(parameter, flow)` key raises
(`KeyError`) but a present key with an empty value cell returns the absent
sentinel. -/
theorem c7_getter_absent_policies (cnf : ConfigHandler) (e p f : String) (y : ℚ)
    (ep : EntityParams) (hep : lookupA cnf.params e = some ep) :
    (lookupA ep.annual (p, y) = some none → cnf.get_annual e p y = .error .valueError) ∧
    (lookupA ep.constant p = some none → cnf.get_const e p = .ok none) ∧
    (lookupA ep.constant_fxe (p, f) = none → cnf.get_const_fxe e p f = .error .keyError) ∧
    (lookupA ep.constant_fxe (p, f) = some none → cnf.get_const_fxe e p f = .ok none) := by
  refine ⟨fun h => ?_, fun h => ?_, fun h => ?_, fun h => ?_⟩ <;>
    simp [ConfigHandler.get_annual, ConfigHandler.get_const, ConfigHandler.get_const_fxe,
      hep, h]

/-- A concrete configuration store exercising every branch of C7: the entity
`gen_hydro` has an empty annual `actual_activity` cell for year 2000, an empty
constant `lifetime` cell, and an empty `input_efficiency` cell for flow
`elecsupply` (while no cell at all exists for flow `heat`). -/
def cnfC7 : ConfigHandler :=
  ⟨[("gen_hydro",
     { annual := [(("actual_activity", 2000), none)]
       constant := [("lifetime", none)]
       constant_fxe := [(("input_efficiency", "elecsupply"), none)]
       configuration := [] })]⟩

/-- Witness for C7 at the concrete store `cnfC7`. -/
theorem c7_getter_absent_policies_witness :
    (cnfC7.get_annual "gen_hydro" "actual_activity" 2000 = .error .valueError) ∧
    (cnfC7.get_const "gen_hydro" "lifetime" = .ok none) ∧
    (cnfC7.get_const_fxe "gen_hydro" "input_efficiency" "heat" = .error .keyError) ∧
    (cnfC7.get_const_fxe "gen_hydro" "input_efficiency" "elecsupply" = .ok none) := by
  have h₁ := c7_getter_absent_policies cnfC7 "gen_hydro" "actual_activity" "heat" 2000 _ rfl
  have h₂ := c7_getter_absent_policies cnfC7 "gen_hydro" "lifetime" "heat" 2000 _ rfl
  have h₃ := c7_getter_absent_policies cnfC7 "gen_hydro" "input_efficiency" "heat" 2000 _ rfl
  have h₄ := c7_getter_absent_policies cnfC7 "gen_hydro" "input_efficiency" "elecsupply" 2000 _ rfl
  exact ⟨h₁.1 rfl, h₂.2.1 rfl, h₃.2.2.1 rfl, h₄.2.2.2 rfl⟩

/-- The relation kind of a generated Pyomo constraint. -/
inductive RelOp
  | eq
  | le
  | ge
deriving DecidableEq, Repr

/-- Result of a constraint-generator call: either the `pyo.Constraint.Skip`
sentinel, or a concrete relation with both sides evaluated under the current
assignment of values to the model variables. -/
inductive ConstraintR
  | skip
  | rel (lhs : ℚ) (op : RelOp) (rhs : ℚ)
deriving DecidableEq, Repr

/-- An assignment of values to the model's variables, sets and parameters, as
declared by `model_utils/initialisation.py` (`_init_sets`, `_init_variables`,
`_init_parameters`, `_init_expressions`).  Variables are indexed as in the
source: `a[e, y, d, h]`, `ctot/cnew/cret[e, y]`, `fin/fout[f, e, y, d, h]`.
`FiE`/`FoE` are the sparse (flow, entity) incidence pair lists; `Y`, `YALL`,
`D`, `H` the time sets (ordered lists, first element = `.first()`); `DL` the
per-(year, day) weight, `HL` the hour-slice length; `eHourlyC2A` the
`e_HourlyC2A` model expression. -/
structure ModelVars where
  a : String → ℚ → ℚ → ℚ → ℚ
  ctot : String → ℚ → ℚ
  cnew : String → ℚ → ℚ
  cret : String → ℚ → ℚ
  fin : String → String → ℚ → ℚ → ℚ → ℚ
  fout : String → String → ℚ → ℚ → ℚ → ℚ
  FiE : List (String × String)
  FoE : List (String × String)
  Y : List ℚ
  YALL : List ℚ
  D : List ℚ
  H : List ℚ
  DL : ℚ → ℚ → ℚ
  HL : ℚ
  eHourlyC2A : String → ℚ → ℚ

/-- `model_utils/initialisation.py`, `_c_io_balance`: for one flow bus and one
(year, day, hour), equate the sum of `fout` over the `FoE` pairs of that flow
with the sum of `fin` over the `FiE` pairs of that flow. -/
def c_io_balance (M : ModelVars) (flow_id : String) (y d h : ℚ) : ConstraintR :=
  .rel (((M.FoE.filter (fun p => p.1 == flow_id)).map (fun p => M.fout p.1 p.2 y d h)).sum)
    .eq (((M.FiE.filter (fun p => p.1 == flow_id)).map (fun p => M.fin p.1 p.2 y d h)).sum)

/-- `model_utils/initialisation.py`, `init_model`: the one constraint the
assembler declares itself, `model.c_io_balance`, indexed over
`model.F × model.Y × model.D × model.H` with rule `_c_io_balance`.  Embedded
as the list of (index, generated constraint) pairs. -/
def init_model_io_balance (M : ModelVars) (F : List String) :
    List ((String × ℚ × ℚ × ℚ) × ConstraintR) :=
  (F ×ˢ (M.Y ×ˢ (M.D ×ˢ M.H))).map
    (fun i => (i, c_io_balance M i.1 i.2.1 i.2.2.1 i.2.2.2))

/-- In a duplicate-free list, exactly one element equals a given member. -/
theorem length_filter_eq_one_of_nodup {α : Type} [DecidableEq α] {l : List α} {x : α}
    (hl : l.Nodup) (hx : x ∈ l) :
    (l.filter (fun z => decide (z = x))).length = 1 := by
  induction l with
  | nil => cases hx
  | cons b l ih =>
    rcases List.nodup_cons.mp hl with ⟨hbl, hl'⟩
    rcases List.mem_cons.mp hx with h | h
    · have hz : (l.filter (fun z => decide (z = x))).length = 0 := by
        rw [List.length_eq_zero, List.filter_eq_nil_iff]
        intro z hzl
        simp only [decide_eq_true_eq]
        intro hzx
        exact hbl ((hzx.trans h) ▸ hzl)
      simp [List.filter_cons, h.symm, hz]
    · have hbx : ¬(b = x) := fun hbx => hbl (hbx ▸ h)
      simp [List.filter_cons, hbx, ih hl' h]

/-- C1: for every flow `f` and every `(year, day, hour)` index, the model
assembler declares exactly one global balance constraint, and that constraint
states that the sum of `flow_out[f, e, y, d, h]` over the `(f, e)` pairs of
`FoE` equals the sum of `flow_in[f, e, y, d, h]` over the `(f, e)` pairs of
`FiE` — for any incidence lists `FiE`/`FoE`, i.e. independent of which
entities participate in `f`. -/
theorem c1_io_balance_unique (M : ModelVars) (F : List String) (f : String) (y d h : ℚ)
    (hF : F.Nodup) (hY : M.Y.Nodup) (hD : M.D.Nodup) (hH : M.H.Nodup)
    (hf : f ∈ F) (hy : y ∈ M.Y) (hd : d ∈ M.D) (hh : h ∈ M.H) :
    (((init_model_io_balance M F).map Prod.fst).filter
      (fun i => decide (i = (f, y, d, h)))).length = 1 ∧
    ∀ c, ((f, y, d, h), c) ∈ init_model_io_balance M F →
      c = .rel (((M.FoE.filter (fun p => p.1 == f)).map (fun p => M.fout p.1 p.2 y d h)).sum)
        .eq (((M.FiE.filter (fun p => p.1 == f)).map (fun p => M.fin p.1 p.2 y d h)).sum) := by
  constructor
  · have hmap : (init_model_io_balance M F).map Prod.fst =
        F ×ˢ (M.Y ×ˢ (M.D ×ˢ M.H)) := by
      have hcomp : (Prod.fst ∘ fun i : String × ℚ × ℚ × ℚ =>
          (i, c_io_balance M i.1 i.2.1 i.2.2.1 i.2.2.2)) = id := rfl
      rw [init_model_io_balance, List.map_map, hcomp, List.map_id]
    rw [hmap]
    refine length_filter_eq_one_of_nodup
      (hF.product (hY.product (hD.product hH))) ?_
    rw [List.mem_product]
    refine ⟨hf, ?_⟩
    rw [List.mem_product]
    refine ⟨hy, ?_⟩
    rw [List.mem_product]
    exact ⟨hd, hh⟩
  · intro c hc
    simp only [init_model_io_balance, List.mem_map] at hc
    obtain ⟨i, _, hi⟩ := hc
    obtain ⟨hidx, hcon⟩ := Prod.mk.injEq .. ▸ hi
    subst hidx
    exact hcon.symm ▸ rfl

/-- A two-entity model around the single flow `elecsupply`: one producer, one
consumer, all variables at concrete values. -/
def mvC1 : ModelVars :=
  { a := fun _ _ _ _ => 0
    ctot := fun _ _ => 0
    cnew := fun _ _ => 0
    cret := fun _ _ => 0
    fin := fun _ _ _ _ _ => 3
    fout := fun _ _ _ _ _ => 3
    FiE := [("elecsupply", "dem_elec")]
    FoE := [("elecsupply", "gen_hydro")]
    Y := [2000, 2001]
    YALL := [2000, 2001]
    D := [0]
    H := [0, 1]
    DL := fun _ _ => 365
    HL := 1
    eHourlyC2A := fun _ _ => 1 }

/-- Witness for C1 at the concrete model `mvC1`. -/
theorem c1_io_balance_unique_witness :
    (((init_model_io_balance mvC1 ["elecsupply"]).map Prod.fst).filter
      (fun i => decide (i = ("elecsupply", 2000, 0, 1)))).length = 1 ∧
    ∀ c, (("elecsupply", 2000, 0, 1), c) ∈ init_model_io_balance mvC1 ["elecsupply"] →
      c = .rel (((mvC1.FoE.filter (fun p => p.1 == "elecsupply")).map
          (fun p => mvC1.fout p.1 p.2 2000 0 1)).sum)
        .eq (((mvC1.FiE.filter (fun p => p.1 == "elecsupply")).map
          (fun p => mvC1.fin p.1 p.2 2000 0 1)).sum) :=
  c1_io_balance_unique mvC1 ["elecsupply"] "elecsupply" 2000 0 1
    (by decide) (by decide) (by decide) (by decide)
    (by decide) (by decide) (by decide) (by decide)

/-- Modelled from the spec: `model_utils/data_handler.py` (class `DataHandler`,
the store bound to `DATA` in `model_utils/configuration.py`) is not under
`src/`; only its callers are.  Per spec §4.1 and the in-src call sites:
`get` is the priority-ordered resolver and returns the absent sentinel
(`none`, Python `None`) when the parameter is unconfigured (its callers test
`is not None`); `get_fxe` and `get_const` may raise on a missing key and
return the absent sentinel for a present-but-empty cell; `get_annual` returns
a value or raises; `check_cnf` returns the configured cell value — its callers
use it both as a truthiness flag (`enable_capacity`, with `0` falsy) and
numerically as the configured `enable_year`. -/
structure DataHandler where
  get : String → String → ℚ → Option ℚ
  get_fxe : String → String → String → ℚ → Except PyErr (Option ℚ)
  get_const : String → String → Except PyErr (Option ℚ)
  get_annual : String → String → ℚ → Except PyErr ℚ
  check_cnf : String → String → ℚ

/-- Arithmetic on Python `None` raises `TypeError`. -/
def numUse : Option ℚ → Except PyErr ℚ
  | some v => .ok v
  | none => .error .typeError

/-- Python's `sum(...)` over a generator of fallible terms, evaluated left to
right; the first raised exception propagates. -/
def sumE : List (Except PyErr ℚ) → Except PyErr ℚ
  | [] => .ok 0
  | t :: ts => do
    let v ← t
    let rest ← sumE ts
    .ok (v + rest)

/-- If every term evaluates, `sumE` returns the plain sum. -/
theorem sumE_ok {α : Type} (l : List α) (f : α → Except PyErr ℚ) (g : α → ℚ)
    (h : ∀ x ∈ l, f x = .ok (g x)) :
    sumE (l.map f) = .ok ((l.map g).sum) := by
  induction l with
  | nil => rfl
  | cons x xs ih =>
    have hx := h x (List.mem_cons_self x xs)
    have hxs := ih (fun z hz => h z (List.mem_cons_of_mem x hz))
    simp only [List.map_cons, sumE, hx, hxs, List.sum_cons]
    rfl

/-- `model.Y.first()`: the first (calibration) year of the ordered year set. -/
def firstYear (l : List ℚ) : ℚ :=
  l.headD 0

/-- Bind on a successful `Except` computation reduces to the continuation. -/
theorem ok_bind {α β : Type} (a : α) (k : α → Except PyErr β) :
    (Except.ok a : Except PyErr α) >>= k = k a := rfl

/-- Bind on a raised exception propagates the exception. -/
theorem error_bind {α β : Type} (err : PyErr) (k : α → Except PyErr β) :
    (Except.error err : Except PyErr α) >>= k = .error err := rfl

/-- The variable assignment for `model_utils/generic.py`, whose constraint
functions carry a leading model-name index `n` on every variable
(`model.a[n, e, y, d, h]`, `model.ctot[n, e, y]`, ...). -/
structure ModelVarsN where
  a : String → String → ℚ → ℚ → ℚ → ℚ
  ctot : String → String → ℚ → ℚ
  cnew : String → String → ℚ → ℚ
  cret : String → String → ℚ → ℚ
  fin : String → String → String → ℚ → ℚ → ℚ → ℚ
  fout : String → String → String → ℚ → ℚ → ℚ → ℚ
  FiE : List (String × String)
  FoE : List (String × String)
  Y : List ℚ
  D : List ℚ
  H : List ℚ
  DL : ℚ → ℚ → ℚ
  HL : ℚ

namespace ModelUtils

/-- `model_utils/generic.py`, `c_flow_in`: balance entity inflows to its
activity; each inflow is multiplied by the entity-and-flow specific
`input_efficiency` (arithmetic on an absent efficiency raises). -/
def c_flow_in (da : DataHandler) (M : ModelVarsN) (n entity_id : String) (y d h : ℚ) :
    Except PyErr ConstraintR := do
  let inflows ← sumE ((M.FiE.filter (fun p => p.2 == entity_id)).map
    (fun p => do
      let o ← da.get_fxe p.2 "input_efficiency" p.1 y
      let v ← numUse o
      pure (M.fin n p.1 p.2 y d h * v)))
  .ok (.rel inflows .eq (M.a n entity_id y d h))

/-- `model_utils/generic.py`, `c_flow_out`: balance entity outflows to its
activity; each outflow is MULTIPLIED by `output_efficiency` (this variant
multiplies where `model_generic/generic_constraints.py` divides). -/
def c_flow_out (da : DataHandler) (M : ModelVarsN) (n entity_id : String) (y d h : ℚ) :
    Except PyErr ConstraintR := do
  let outflows ← sumE ((M.FoE.filter (fun p => p.2 == entity_id)).map
    (fun p => do
      let o ← da.get_fxe p.2 "output_efficiency" p.1 y
      let v ← numUse o
      pure (M.fout n p.1 p.2 y d h * v)))
  .ok (.rel outflows .eq (M.a n entity_id y d h))

/-- `model_utils/generic.py`, `c_cap_transfer`: for a capacity-enabled entity
after its enable year, `ctot[y] == ctot[y-1] + cnew[y] - cret[y]`; otherwise
the `Skip` sentinel. -/
def c_cap_transfer (da : DataHandler) (M : ModelVarsN) (n e : String) (y : ℚ) :
    ConstraintR :=
  if da.check_cnf e "enable_capacity" ≠ 0 ∧ y > da.check_cnf e "enable_year" then
    .rel (M.ctot n e y) .eq (M.ctot n e (y - 1) + M.cnew n e y - M.cret n e y)
  else .skip

/-- `model_utils/generic.py`, `c_cap_retirement`: for a capacity-enabled
entity after its enable year, retirement is zero when no `lifetime` constant
is configured; equals `cnew[y - lifetime]` once `lifetime <= y - Y.first()`;
and otherwise equals the configured `initial_retired_capacity` annual value
(which raises when missing). -/
def c_cap_retirement (da : DataHandler) (M : ModelVarsN) (n e : String) (y : ℚ) :
    Except PyErr ConstraintR :=
  if da.check_cnf e "enable_capacity" ≠ 0 ∧ y > da.check_cnf e "enable_year" then do
    let life ← da.get_const e "lifetime"
    match life with
    | none => .ok (.rel (M.cret n e y) .eq 0)
    | some l =>
      if l ≤ y - firstYear M.Y then
        .ok (.rel (M.cret n e y) .eq (M.cnew n e (y - l)))
      else do
        let cnf_retired ← da.get_annual e "initial_retired_capacity" y
        .ok (.rel (M.cret n e y) .eq cnf_retired)
  else .ok .skip

/-- `model_utils/generic.py`, `c_act_ramp_up`: skip when capacity is disabled,
before the enable year, or when the ramp rate is unconfigured or `>= 1`;
otherwise bound the hour-to-hour activity increment. -/
def c_act_ramp_up (da : DataHandler) (M : ModelVarsN) (n entity_id : String) (y d h : ℚ) :
    Except PyErr ConstraintR :=
  if da.check_cnf entity_id "enable_capacity" ≠ 0 ∧
      y > da.check_cnf entity_id "enable_year" then
    match da.get entity_id "ramp_rate" y with
    | none => .ok .skip
    | some ramp_rate =>
      if ramp_rate ≥ 1 then .ok .skip
      else do
        let c2a ← numUse (da.get entity_id "capacity_to_activity" y)
        let cap_to_act := c2a * M.HL / (365 * 24)
        .ok (.rel (M.a n entity_id y d h - M.a n entity_id y d (h - 1)) .le
          (ramp_rate * M.ctot n entity_id y * cap_to_act))
  else .ok .skip

/-- `model_utils/generic.py`, `c_act_ramp_down`: mirror image of
`c_act_ramp_up`. -/
def c_act_ramp_down (da : DataHandler) (M : ModelVarsN) (n entity_id : String) (y d h : ℚ) :
    Except PyErr ConstraintR :=
  if da.check_cnf entity_id "enable_capacity" ≠ 0 ∧
      y > da.check_cnf entity_id "enable_year" then
    match da.get entity_id "ramp_rate" y with
    | none => .ok .skip
    | some ramp_rate =>
      if ramp_rate ≥ 1 then .ok .skip
      else do
        let c2a ← numUse (da.get entity_id "capacity_to_activity" y)
        let cap_to_act := c2a * M.HL / (365 * 24)
        .ok (.rel (M.a n entity_id y d (h - 1) - M.a n entity_id y d h) .le
          (ramp_rate * M.ctot n entity_id y * cap_to_act))
  else .ok .skip

/-- `model_utils/generic.py`, `c_act_cf_min_hour`: the `lf_min` lookup result
is used directly in arithmetic with no absent check (line 246 forms
`lf_min * model.ctot[...]`), after `capacity_to_activity` is forced at line
245; an unconfigured value therefore raises instead of skipping. -/
def c_act_cf_min_hour (da : DataHandler) (M : ModelVarsN) (n entity_id : String) (y d h : ℚ) :
    Except PyErr ConstraintR :=
  if da.check_cnf entity_id "enable_capacity" ≠ 0 ∧
      y > da.check_cnf entity_id "enable_year" then do
    let c2a ← numUse (da.get entity_id "capacity_to_activity" y)
    let cap_to_act := c2a * M.HL / (365 * 24)
    let lf_min ← numUse (da.get entity_id "lf_min" y)
    .ok (.rel (lf_min * M.ctot n entity_id y * cap_to_act) .le (M.a n entity_id y d h))
  else .ok .skip

/-- `model_utils/generic.py`, `c_act_cf_max_hour`: like `c_act_cf_min_hour`
with `lf_max`, bounding activity from above. -/
def c_act_cf_max_hour (da : DataHandler) (M : ModelVarsN) (n entity_id : String) (y d h : ℚ) :
    Except PyErr ConstraintR :=
  if da.check_cnf entity_id "enable_capacity" ≠ 0 ∧
      y > da.check_cnf entity_id "enable_year" then do
    let c2a ← numUse (da.get entity_id "capacity_to_activity" y)
    let cap_to_act := c2a * M.HL / (365 * 24)
    let lf_max ← numUse (da.get entity_id "lf_max" y)
    .ok (.rel (M.a n entity_id y d h) .le (lf_max * M.ctot n entity_id y * cap_to_act))
  else .ok .skip

/-- Annual activity sum `Σ_d DL[y,d] · Σ_h a[n,e,y,d,h]` used by the annual
load-factor constraints. -/
def act_annual (M : ModelVarsN) (n entity_id : String) (y : ℚ) : ℚ :=
  (M.D.map (fun d => M.DL y d * (M.H.map (fun h => M.a n entity_id y d h)).sum)).sum

/-- `model_utils/generic.py`, `c_act_cf_min_year`: here `lf_min` is forced
first (line 264 forms `lf_min * model.ctot[...] * cap_to_act`, left to
right), so an unconfigured `lf_min` raises before `capacity_to_activity`
is touched. -/
def c_act_cf_min_year (da : DataHandler) (M : ModelVarsN) (n entity_id : String) (y : ℚ) :
    Except PyErr ConstraintR :=
  if da.check_cnf entity_id "enable_capacity" ≠ 0 ∧
      y > da.check_cnf entity_id "enable_year" then do
    let lf_min ← numUse (da.get entity_id "lf_min" y)
    let cap_to_act ← numUse (da.get entity_id "capacity_to_activity" y)
    .ok (.rel (lf_min * M.ctot n entity_id y * cap_to_act) .le (act_annual M n entity_id y))
  else .ok .skip

/-- `model_utils/generic.py`, `c_act_cf_max_year`: like `c_act_cf_min_year`
with `lf_max`, bounding annual activity from above. -/
def c_act_cf_max_year (da : DataHandler) (M : ModelVarsN) (n entity_id : String) (y : ℚ) :
    Except PyErr ConstraintR :=
  if da.check_cnf entity_id "enable_capacity" ≠ 0 ∧
      y > da.check_cnf entity_id "enable_year" then do
    let lf_max ← numUse (da.get entity_id "lf_max" y)
    let cap_to_act ← numUse (da.get entity_id "capacity_to_activity" y)
    .ok (.rel (act_annual M n entity_id y) .le (lf_max * M.ctot n entity_id y * cap_to_act))
  else .ok .skip

/-- Python list-comprehension over fallible per-element work. -/
def mapE {α β : Type} : List α → (α → Except PyErr β) → Except PyErr (List β)
  | [], _ => .ok []
  | x :: xs, f => do
    let y ← f x
    let ys ← mapE xs f
    .ok (y :: ys)

/-- The per-entity loop body of `init_activity` (`model_utils/generic.py`
lines 288-299), returning the list of `(year, value)` pairs at which
`model.a[entity, year, :]` is fixed: every year is visited in order; the
fixed value is `actual_activity / (365*24)` only when the year is both the
first modeled year `y_0` and the entity's enable year, and `0` otherwise;
the loop breaks right after the enable year, leaving later years unfixed. -/
def init_activity_fix (da : DataHandler) (entity_id : String) (y0 : ℚ) :
    List ℚ → Except PyErr (List (ℚ × ℚ))
  | [] => .ok []
  | y :: ys => do
    let act ← if y = y0 ∧ y = da.check_cnf entity_id "enable_year" then do
        let v ← da.get_annual entity_id "actual_activity" y
        Except.ok (v / (365 * 24))
      else Except.ok (0 : ℚ)
    if y = da.check_cnf entity_id "enable_year" then
      .ok [(y, act)]
    else do
      let rest ← init_activity_fix da entity_id y0 ys
      .ok ((y, act) :: rest)

/-- `model_utils/generic.py`, `init_activity`: apply `init_activity_fix` to
every entity of the given list. -/
def init_activity (da : DataHandler) (entity_list : List String) (y0 : ℚ) (years : List ℚ) :
    Except PyErr (List (String × List (ℚ × ℚ))) :=
  mapE entity_list (fun e => do
    let fixes ← init_activity_fix da e y0 years
    .ok (e, fixes))

/-- The year loop of `init_capacity` (`model_utils/generic.py` lines
310-316): each visited year fixes `(cnew, cret, ctot)`; `cnew` and `cret`
are fixed to `0` throughout, `ctot` to `0` before the enable year and to the
historical capacity at the enable year, where the loop breaks. -/
def capacity_fix_loop (enable_year cap_enable : ℚ) : List ℚ → List (ℚ × ℚ × ℚ × ℚ)
  | [] => []
  | y :: ys =>
    if y = enable_year then [(y, 0, 0, cap_enable)]
    else (y, 0, 0, 0) :: capacity_fix_loop enable_year cap_enable ys

/-- The per-entity body of `init_capacity` (`model_utils/generic.py` lines
305-316): nothing is fixed for entities without `enable_capacity`; otherwise
the historical `actual_capacity` at the enable year is fetched (raising when
missing) and the year loop runs. -/
def init_capacity_fix (da : DataHandler) (entity_id : String) (years : List ℚ) :
    Except PyErr (List (ℚ × ℚ × ℚ × ℚ)) :=
  if da.check_cnf entity_id "enable_capacity" ≠ 0 then do
    let cap_enable ← da.get_annual entity_id "actual_capacity"
      (da.check_cnf entity_id "enable_year")
    .ok (capacity_fix_loop (da.check_cnf entity_id "enable_year") cap_enable years)
  else .ok []

/-- `model_utils/generic.py`, `init_capacity`: apply `init_capacity_fix` to
every entity of the given set. -/
def init_capacity (da : DataHandler) (entity_list : List String) (years : List ℚ) :
    Except PyErr (List (String × List (ℚ × ℚ × ℚ × ℚ))) :=
  mapE entity_list (fun e => do
    let fixes ← init_capacity_fix da e years
    .ok (e, fixes))

end ModelUtils

/-- The prefix of an ordered year list up to and including the first
occurrence of the given year (the years a break-at-enable-year loop visits). -/
def yearsUpTo (enable_year : ℚ) : List ℚ → List ℚ
  | [] => []
  | y :: ys => if y = enable_year then [y] else y :: yearsUpTo enable_year ys

namespace ModelGeneric

/-- `model_generic/generic_constraints.py`, `c_flow_in`: identical to the
`model_utils` variant (inflow times `input_efficiency`), without the leading
model-name index. -/
def c_flow_in (da : DataHandler) (M : ModelVars) (entity_id : String) (y d h : ℚ) :
    Except PyErr ConstraintR := do
  let inflows ← sumE ((M.FiE.filter (fun p => p.2 == entity_id)).map
    (fun p => do
      let o ← da.get_fxe p.2 "input_efficiency" p.1 y
      let v ← numUse o
      pure (M.fin p.1 p.2 y d h * v)))
  .ok (.rel inflows .eq (M.a entity_id y d h))

/-- `model_generic/generic_constraints.py`, `c_flow_out`: balance entity
outflows to its activity; each outflow is DIVIDED by `output_efficiency`
(line 69), unlike the `model_utils` variant. -/
def c_flow_out (da : DataHandler) (M : ModelVars) (entity_id : String) (y d h : ℚ) :
    Except PyErr ConstraintR := do
  let outflows ← sumE ((M.FoE.filter (fun p => p.2 == entity_id)).map
    (fun p => do
      let o ← da.get_fxe p.2 "output_efficiency" p.1 y
      let v ← numUse o
      pure (M.fout p.1 p.2 y d h / v)))
  .ok (.rel outflows .eq (M.a entity_id y d h))

/-- Total inflow on one flow bus: `Σ fin[f, e]` over `FiE` pairs with this
flow. -/
def total_inflow_f (M : ModelVars) (flow_id : String) (y d h : ℚ) : ℚ :=
  ((M.FiE.filter (fun p => p.1 == flow_id)).map (fun p => M.fin p.1 p.2 y d h)).sum

/-- Total outflow on one flow bus: `Σ fout[f, e]` over `FoE` pairs with this
flow. -/
def total_outflow_f (M : ModelVars) (flow_id : String) (y d h : ℚ) : ℚ :=
  ((M.FoE.filter (fun p => p.1 == flow_id)).map (fun p => M.fout p.1 p.2 y d h)).sum

/-- Total input of one entity: `Σ fin[f, e]` over `FiE` pairs with this
entity. -/
def total_input_e (M : ModelVars) (entity_id : String) (y d h : ℚ) : ℚ :=
  ((M.FiE.filter (fun p => p.2 == entity_id)).map (fun p => M.fin p.1 p.2 y d h)).sum

/-- Total output of one entity: `Σ fout[f, e]` over `FoE` pairs with this
entity. -/
def total_output_e (M : ModelVars) (entity_id : String) (y d h : ℚ) : ℚ :=
  ((M.FoE.filter (fun p => p.2 == entity_id)).map (fun p => M.fout p.1 p.2 y d h)).sum

/-- `c_flow_in_share_equal`: `fin[f,e] == share · total_inflow(f)`, skipped
when the share factor cell is absent. -/
def c_flow_in_share_equal (da : DataHandler) (M : ModelVars) (flow_id entity_id : String)
    (y d h : ℚ) : Except PyErr ConstraintR := do
  let share ← da.get_fxe entity_id "flow_in_share_equal" flow_id y
  match share with
  | some v => .ok (.rel (M.fin flow_id entity_id y d h) .eq (v * total_inflow_f M flow_id y d h))
  | none => .ok .skip

/-- `c_flow_in_share_max`: `fin[f,e] <= share · total_inflow(f)`, skipped when
absent. -/
def c_flow_in_share_max (da : DataHandler) (M : ModelVars) (flow_id entity_id : String)
    (y d h : ℚ) : Except PyErr ConstraintR := do
  let share ← da.get_fxe entity_id "flow_in_share_max" flow_id y
  match share with
  | some v => .ok (.rel (M.fin flow_id entity_id y d h) .le (v * total_inflow_f M flow_id y d h))
  | none => .ok .skip

/-- `c_flow_in_share_min`: `fin[f,e] >= share · total_inflow(f)`, skipped when
absent. -/
def c_flow_in_share_min (da : DataHandler) (M : ModelVars) (flow_id entity_id : String)
    (y d h : ℚ) : Except PyErr ConstraintR := do
  let share ← da.get_fxe entity_id "flow_in_share_min" flow_id y
  match share with
  | some v => .ok (.rel (M.fin flow_id entity_id y d h) .ge (v * total_inflow_f M flow_id y d h))
  | none => .ok .skip

/-- `c_flow_out_share_equal`: `fout[f,e] == share · total_outflow(f)`, skipped
when absent. -/
def c_flow_out_share_equal (da : DataHandler) (M : ModelVars) (flow_id entity_id : String)
    (y d h : ℚ) : Except PyErr ConstraintR := do
  let share ← da.get_fxe entity_id "flow_out_share_equal" flow_id y
  match share with
  | some v => .ok (.rel (M.fout flow_id entity_id y d h) .eq (v * total_outflow_f M flow_id y d h))
  | none => .ok .skip

/-- `c_flow_out_share_max`: `fout[f,e] <= share · total_outflow(f)`, skipped
when absent. -/
def c_flow_out_share_max (da : DataHandler) (M : ModelVars) (flow_id entity_id : String)
    (y d h : ℚ) : Except PyErr ConstraintR := do
  let share ← da.get_fxe entity_id "flow_out_share_max" flow_id y
  match share with
  | some v => .ok (.rel (M.fout flow_id entity_id y d h) .le (v * total_outflow_f M flow_id y d h))
  | none => .ok .skip

/-- `c_flow_out_share_min`: `fout[f,e] >= share · total_outflow(f)`, skipped
when absent. -/
def c_flow_out_share_min (da : DataHandler) (M : ModelVars) (flow_id entity_id : String)
    (y d h : ℚ) : Except PyErr ConstraintR := do
  let share ← da.get_fxe entity_id "flow_out_share_min" flow_id y
  match share with
  | some v => .ok (.rel (M.fout flow_id entity_id y d h) .ge (v * total_outflow_f M flow_id y d h))
  | none => .ok .skip

/-- `c_input_share_equal`: `fin[f,e] == share · total_input(e)`, skipped when
absent. -/
def c_input_share_equal (da : DataHandler) (M : ModelVars) (flow_id entity_id : String)
    (y d h : ℚ) : Except PyErr ConstraintR := do
  let share ← da.get_fxe entity_id "input_share_equal" flow_id y
  match share with
  | some v => .ok (.rel (M.fin flow_id entity_id y d h) .eq (v * total_input_e M entity_id y d h))
  | none => .ok .skip

/-- `c_input_share_max`: `fin[f,e] <= share · total_input(e)`, skipped when
absent. -/
def c_input_share_max (da : DataHandler) (M : ModelVars) (flow_id entity_id : String)
    (y d h : ℚ) : Except PyErr ConstraintR := do
  let share ← da.get_fxe entity_id "input_share_max" flow_id y
  match share with
  | some v => .ok (.rel (M.fin flow_id entity_id y d h) .le (v * total_input_e M entity_id y d h))
  | none => .ok .skip

/-- `c_input_share_min`: `fin[f,e] >= share · total_input(e)`, skipped when
absent. -/
def c_input_share_min (da : DataHandler) (M : ModelVars) (flow_id entity_id : String)
    (y d h : ℚ) : Except PyErr ConstraintR := do
  let share ← da.get_fxe entity_id "input_share_min" flow_id y
  match share with
  | some v => .ok (.rel (M.fin flow_id entity_id y d h) .ge (v * total_input_e M entity_id y d h))
  | none => .ok .skip

/-- `c_output_share_equal`: `fout[f,e] == share · total_output(e)`, skipped
when absent. -/
def c_output_share_equal (da : DataHandler) (M : ModelVars) (flow_id entity_id : String)
    (y d h : ℚ) : Except PyErr ConstraintR := do
  let share ← da.get_fxe entity_id "output_share_equal" flow_id y
  match share with
  | some v => .ok (.rel (M.fout flow_id entity_id y d h) .eq (v * total_output_e M entity_id y d h))
  | none => .ok .skip

/-- `c_output_share_max` (`generic_constraints.py` line 150, identically
`model_utils/generic.py` line 150): despite the docstring "below a maximum
share", the returned relation is an EQUALITY `fout[f,e] == share ·
total_output(e)`; skipped when absent. -/
def c_output_share_max (da : DataHandler) (M : ModelVars) (flow_id entity_id : String)
    (y d h : ℚ) : Except PyErr ConstraintR := do
  let share ← da.get_fxe entity_id "output_share_max" flow_id y
  match share with
  | some v => .ok (.rel (M.fout flow_id entity_id y d h) .eq (v * total_output_e M entity_id y d h))
  | none => .ok .skip

/-- `c_output_share_min` (`generic_constraints.py` line 159, identically
`model_utils/generic.py` line 159): despite the docstring "above a minimum
share", the returned relation is an EQUALITY `fout[f,e] == share ·
total_output(e)`; skipped when absent. -/
def c_output_share_min (da : DataHandler) (M : ModelVars) (flow_id entity_id : String)
    (y d h : ℚ) : Except PyErr ConstraintR := do
  let share ← da.get_fxe entity_id "output_share_min" flow_id y
  match share with
  | some v => .ok (.rel (M.fout flow_id entity_id y d h) .eq (v * total_output_e M entity_id y d h))
  | none => .ok .skip

/-- `model_generic/generic_constraints.py`, `c_cap_transfer` (lines 175-193):
for every capacity-enabled entity — at EVERY year, including the first — the
generated constraint equates `ctot[e,y]` with a cumulative stock: with no
lifetime, initial capacity plus all `cnew` up to `y`; with a lifetime,
the not-yet-expired `cnew` plus either the initial capacity net of the
configured historical retirements (while fewer than `lifetime` years have
elapsed) or zero.  It never produces the recurrence of the `model_utils`
variant and never skips on the first year. -/
def c_cap_transfer (da : DataHandler) (M : ModelVars) (e : String) (y : ℚ) :
    Except PyErr ConstraintR :=
  if da.check_cnf e "enable_capacity" ≠ 0 then do
    let initial_capacity ← da.get_annual e "actual_capacity" (firstYear M.Y)
    let life ← da.get_const e "lifetime"
    match life with
    | none =>
      .ok (.rel (M.ctot e y) .eq (initial_capacity +
        ((M.Y.filter (fun yx => decide (yx ≤ y))).map (fun yx => M.cnew e yx)).sum))
    | some lifetime =>
      let new_cap := ((M.Y.filter (fun yx => decide (yx ≤ y ∧ y - yx < lifetime))).map
        (fun yx => M.cnew e yx)).sum
      if y - firstYear M.Y < lifetime then do
        let retired ← sumE ((M.YALL.filter (fun yx => decide (yx ≤ y))).map
          (fun yx => da.get_annual e "initial_retired_capacity" yx))
        .ok (.rel (M.ctot e y) .eq ((initial_capacity - retired) + new_cap))
      else
        .ok (.rel (M.ctot e y) .eq (0 + new_cap))
  else .ok .skip

/-- `model_generic/generic_constraints.py`, `c_act_ramp_up` (lines 216-224):
the ramp rate is multiplied by the hour-slice length `HL` as soon as it is
fetched (line 219), so an unconfigured ramp rate raises `TypeError` before
the dead `is None` test on line 220 can skip. -/
def c_act_ramp_up (da : DataHandler) (M : ModelVars) (e : String) (y d h : ℚ) :
    Except PyErr ConstraintR :=
  if da.check_cnf e "enable_capacity" ≠ 0 then do
    let rr ← numUse (da.get e "ramp_rate" y)
    let ramp_rate := rr * M.HL
    if ramp_rate ≥ 1 then .ok .skip
    else
      .ok (.rel (M.a e y d h - M.a e y d (h - M.HL)) .le
        (ramp_rate * M.ctot e y * M.eHourlyC2A e y))
  else .ok .skip

/-- `model_generic/generic_constraints.py`, `c_act_ramp_down`: mirror image of
`c_act_ramp_up`, with the same forced multiplication of the ramp rate. -/
def c_act_ramp_down (da : DataHandler) (M : ModelVars) (e : String) (y d h : ℚ) :
    Except PyErr ConstraintR :=
  if da.check_cnf e "enable_capacity" ≠ 0 then do
    let rr ← numUse (da.get e "ramp_rate" y)
    let ramp_rate := rr * M.HL
    if ramp_rate ≥ 1 then .ok .skip
    else
      .ok (.rel (M.a e y d (h - M.HL) - M.a e y d h) .le
        (ramp_rate * M.ctot e y * M.eHourlyC2A e y))
  else .ok .skip

end ModelGeneric

/-- `"enable_year"` and `"enable_capacity"` are distinct parameter names. -/
theorem strYearCap : ¬ ("enable_year" : String) = "enable_capacity" := by decide

/-- A data store with capacity enabled, every other configuration value 2000
(in particular `enable_year` = 2000), no `lifetime`, and every annual value 7. -/
def daC2 : DataHandler :=
  { get := fun _ _ _ => none
    get_fxe := fun _ _ _ _ => .ok none
    get_const := fun _ _ => .ok none
    get_annual := fun _ _ _ => .ok 7
    check_cnf := fun _ p => if p = "enable_capacity" then 1 else 2000 }

/-- A concrete `model_utils`-style assignment: four years 2000-2003 with
`cnew` = 5 in 2001 and 3 in 2002, everything else at simple fixed values. -/
def mnv0 : ModelVarsN :=
  { a := fun _ _ _ _ _ => 2
    ctot := fun _ _ y => y - 1000
    cnew := fun _ _ y => if y = 2001 then 5 else if y = 2002 then 3 else 0
    cret := fun _ _ _ => 4
    fin := fun _ _ _ _ _ _ => 3
    fout := fun _ _ _ _ _ _ => 6
    FiE := [("elecsupply", "dem_elec")]
    FoE := [("elecsupply", "gen_hydro")]
    Y := [2000, 2001, 2002, 2003]
    D := [0]
    H := [0, 1]
    DL := fun _ _ => 365
    HL := 1 }

/-- The no-lifetime branch of the `model_generic` `c_cap_transfer`: a
cumulative-stock equality, generated at every year (no skip). -/
theorem mg_cap_transfer_nolife (da : DataHandler) (M : ModelVars) (e : String)
    (y init : ℚ) (hcap : da.check_cnf e "enable_capacity" ≠ 0)
    (h1 : da.get_annual e "actual_capacity" (firstYear M.Y) = .ok init)
    (h2 : da.get_const e "lifetime" = .ok none) :
    ModelGeneric.c_cap_transfer da M e y = .ok (.rel (M.ctot e y) .eq (init +
      ((M.Y.filter (fun yx => decide (yx ≤ y))).map (fun yx => M.cnew e yx)).sum)) := by
  simp [ModelGeneric.c_cap_transfer, hcap, h1, h2, ok_bind]

/-- C2 counterexample: the claim says "the capacity-transfer constraint
generator ... returns the skip sentinel for the first/enable year", but the
cited `model_generic/generic_constraints.py` `c_cap_transfer`, called at the
first modeled year (2000 = `Y.first()` = the configured enable year) for a
capacity-enabled entity with initial capacity 7, returns a cumulative-stock
equality, not the skip sentinel. -/
theorem c2_counterexample :
    ModelGeneric.c_cap_transfer daC2 mvC1 "gen_hydro" 2000 =
      .ok (.rel (mvC1.ctot "gen_hydro" 2000) .eq (7 +
        ((mvC1.Y.filter (fun yx => decide (yx ≤ (2000 : ℚ)))).map
          (fun yx => mvC1.cnew "gen_hydro" yx)).sum)) ∧
    ModelGeneric.c_cap_transfer daC2 mvC1 "gen_hydro" 2000 ≠ .ok .skip := by
  have h := mg_cap_transfer_nolife daC2 mvC1 "gen_hydro" 2000 7
    (by norm_num [daC2]) rfl rfl
  exact ⟨h, by rw [h]; exact fun hc => ConstraintR.noConfusion (Except.ok.inj hc)⟩

/-- C2 (amended): the `model_utils/generic.py` `c_cap_transfer` returns, for
every capacity-enabled entity and every year strictly after the enable year,
exactly the equality `capacity_total[e,y] == capacity_total[e,y-1] +
capacity_new[e,y] - capacity_retired[e,y]`, and the skip sentinel for the
enable year and before, regardless of any other constraint; the
`model_generic/generic_constraints.py` variant of `c_cap_transfer` instead
returns, for every capacity-enabled entity at every year including the first
(shown here for the no-lifetime branch), the cumulative equality
`capacity_total[e,y] == initial_capacity + Σ_{yx ≤ y} capacity_new[e,yx]`. -/
theorem c2_cap_transfer_variants (da : DataHandler) (MN : ModelVarsN) (M : ModelVars)
    (n e : String) (y init : ℚ)
    (hcap : da.check_cnf e "enable_capacity" ≠ 0) :
    (y > da.check_cnf e "enable_year" →
      ModelUtils.c_cap_transfer da MN n e y =
        .rel (MN.ctot n e y) .eq
          (MN.ctot n e (y - 1) + MN.cnew n e y - MN.cret n e y)) ∧
    (¬ y > da.check_cnf e "enable_year" →
      ModelUtils.c_cap_transfer da MN n e y = .skip) ∧
    (da.get_annual e "actual_capacity" (firstYear M.Y) = .ok init →
      da.get_const e "lifetime" = .ok none →
      ModelGeneric.c_cap_transfer da M e y = .ok (.rel (M.ctot e y) .eq (init +
        ((M.Y.filter (fun yx => decide (yx ≤ y))).map (fun yx => M.cnew e yx)).sum))) := by
  refine ⟨fun hy => ?_, fun hy => ?_, fun h1 h2 => ?_⟩
  · simp [ModelUtils.c_cap_transfer, hcap, hy]
  · simp [ModelUtils.c_cap_transfer, hy]
  · exact mg_cap_transfer_nolife da M e y init hcap h1 h2

/-- Witness for C2 at the concrete store `daC2` and assignments `mnv0`,
`mvC1`. -/
theorem c2_cap_transfer_variants_witness :
    ModelUtils.c_cap_transfer daC2 mnv0 "base" "gen_hydro" 2001 =
      .rel (mnv0.ctot "base" "gen_hydro" 2001) .eq
        (mnv0.ctot "base" "gen_hydro" (2001 - 1) + mnv0.cnew "base" "gen_hydro" 2001
          - mnv0.cret "base" "gen_hydro" 2001) ∧
    ModelUtils.c_cap_transfer daC2 mnv0 "base" "gen_hydro" 2000 = .skip ∧
    ModelGeneric.c_cap_transfer daC2 mvC1 "gen_hydro" 2001 =
      .ok (.rel (mvC1.ctot "gen_hydro" 2001) .eq (7 +
        ((mvC1.Y.filter (fun yx => decide (yx ≤ (2001 : ℚ)))).map
          (fun yx => mvC1.cnew "gen_hydro" yx)).sum)) :=
  ⟨(c2_cap_transfer_variants daC2 mnv0 mvC1 "base" "gen_hydro" 2001 7
      (by norm_num [daC2])).1 (by norm_num [daC2, if_neg strYearCap]),
   (c2_cap_transfer_variants daC2 mnv0 mvC1 "base" "gen_hydro" 2000 7
      (by norm_num [daC2])).2.1 (by norm_num [daC2, if_neg strYearCap]),
   (c2_cap_transfer_variants daC2 mnv0 mvC1 "base" "gen_hydro" 2001 7
      (by norm_num [daC2])).2.2 rfl rfl⟩

/-- A data store with capacity enabled, `enable_year` = 2000, a configured
`lifetime` of 2 years, and every annual value (in particular
`initial_retired_capacity`) equal to 9. -/
def daC3 : DataHandler :=
  { get := fun _ _ _ => none
    get_fxe := fun _ _ _ _ => .ok none
    get_const := fun _ p => if p = "lifetime" then .ok (some 2) else .ok none
    get_annual := fun _ _ _ => .ok 9
    check_cnf := fun _ p => if p = "enable_capacity" then 1 else 2000 }

/-- Retirement, no-lifetime branch: `cret == 0`. -/
theorem mu_cap_retirement_nolife (da : DataHandler) (M : ModelVarsN) (n e : String)
    (y : ℚ) (hcap : da.check_cnf e "enable_capacity" ≠ 0)
    (hy : y > da.check_cnf e "enable_year")
    (hnone : da.get_const e "lifetime" = .ok none) :
    ModelUtils.c_cap_retirement da M n e y = .ok (.rel (M.cret n e y) .eq 0) := by
  simp [ModelUtils.c_cap_retirement, hcap, hy, hnone, ok_bind]

/-- Retirement, aged-out branch (`lifetime <= y - Y.first()`):
`cret == cnew[y - lifetime]`. -/
theorem mu_cap_retirement_aged (da : DataHandler) (M : ModelVarsN) (n e : String)
    (y life : ℚ) (hcap : da.check_cnf e "enable_capacity" ≠ 0)
    (hy : y > da.check_cnf e "enable_year")
    (hsome : da.get_const e "lifetime" = .ok (some life))
    (hge : life ≤ y - firstYear M.Y) :
    ModelUtils.c_cap_retirement da M n e y =
      .ok (.rel (M.cret n e y) .eq (M.cnew n e (y - life))) := by
  simp [ModelUtils.c_cap_retirement, hcap, hy, hsome, hge, ok_bind]

/-- Retirement, historical branch (`y - Y.first() < lifetime`):
`cret == initial_retired_capacity[y]`. -/
theorem mu_cap_retirement_hist (da : DataHandler) (M : ModelVarsN) (n e : String)
    (y life r : ℚ) (hcap : da.check_cnf e "enable_capacity" ≠ 0)
    (hy : y > da.check_cnf e "enable_year")
    (hsome : da.get_const e "lifetime" = .ok (some life))
    (hlt : y - firstYear M.Y < life)
    (hr : da.get_annual e "initial_retired_capacity" y = .ok r) :
    ModelUtils.c_cap_retirement da M n e y = .ok (.rel (M.cret n e y) .eq r) := by
  simp [ModelUtils.c_cap_retirement, hcap, hy, hsome, hr, not_le.mpr hlt, ok_bind]

/-- C3: for every capacity-enabled entity after its enable year, the
retirement generator returns exactly one of three equalities — zero when no
lifetime is configured; `capacity_new[e, y - lifetime]` once at least
`lifetime` years have elapsed since the model's first year; the configured
historical retirement otherwise — the last two branches selected exclusively
by comparing elapsed years to the lifetime.  In the concrete scenario
(lifetime 2, enable year 2000, `capacity_new[2001] = 5`), the generated
constraint at 2003 equates `capacity_retired[2003]` with
`capacity_new[2001] = 5`. -/
theorem c3_cap_retirement_branches (da : DataHandler) (M : ModelVarsN) (n e : String)
    (y : ℚ) (hcap : da.check_cnf e "enable_capacity" ≠ 0)
    (hy : y > da.check_cnf e "enable_year") :
    (da.get_const e "lifetime" = .ok none →
      ModelUtils.c_cap_retirement da M n e y = .ok (.rel (M.cret n e y) .eq 0)) ∧
    (∀ life, da.get_const e "lifetime" = .ok (some life) → life ≤ y - firstYear M.Y →
      ModelUtils.c_cap_retirement da M n e y =
        .ok (.rel (M.cret n e y) .eq (M.cnew n e (y - life)))) ∧
    (∀ life r, da.get_const e "lifetime" = .ok (some life) → y - firstYear M.Y < life →
      da.get_annual e "initial_retired_capacity" y = .ok r →
      ModelUtils.c_cap_retirement da M n e y = .ok (.rel (M.cret n e y) .eq r)) ∧
    ModelUtils.c_cap_retirement daC3 mnv0 "base" "gen_coal" 2003 =
      .ok (.rel (mnv0.cret "base" "gen_coal" 2003) .eq (mnv0.cnew "base" "gen_coal" 2001)) ∧
    mnv0.cnew "base" "gen_coal" 2001 = 5 := by
  refine ⟨fun hnone => mu_cap_retirement_nolife da M n e y hcap hy hnone,
    fun life hsome hge => mu_cap_retirement_aged da M n e y life hcap hy hsome hge,
    fun life r hsome hlt hr => mu_cap_retirement_hist da M n e y life r hcap hy hsome hlt hr,
    ?_, by norm_num [mnv0]⟩
  have h := mu_cap_retirement_aged daC3 mnv0 "base" "gen_coal" 2003 2
    (by norm_num [daC3]) (by norm_num [daC3, if_neg strYearCap])
    (by norm_num [daC3]) (by norm_num [firstYear, mnv0])
  have h2001 : (2003 - 2 : ℚ) = 2001 := by norm_num
  rw [h2001] at h
  exact h

/-- Witness for C3: all three branches exercised at concrete stores. -/
theorem c3_cap_retirement_branches_witness :
    ModelUtils.c_cap_retirement daC2 mnv0 "base" "gen_hydro" 2001 =
      .ok (.rel (mnv0.cret "base" "gen_hydro" 2001) .eq 0) ∧
    ModelUtils.c_cap_retirement daC3 mnv0 "base" "gen_coal" 2003 =
      .ok (.rel (mnv0.cret "base" "gen_coal" 2003) .eq
        (mnv0.cnew "base" "gen_coal" (2003 - 2))) ∧
    ModelUtils.c_cap_retirement daC3 mnv0 "base" "gen_coal" 2001 =
      .ok (.rel (mnv0.cret "base" "gen_coal" 2001) .eq 9) :=
  ⟨(c3_cap_retirement_branches daC2 mnv0 "base" "gen_hydro" 2001
      (by norm_num [daC2]) (by norm_num [daC2, if_neg strYearCap])).1 rfl,
   (c3_cap_retirement_branches daC3 mnv0 "base" "gen_coal" 2003
      (by norm_num [daC3]) (by norm_num [daC3, if_neg strYearCap])).2.1 2
      (by norm_num [daC3]) (by norm_num [firstYear, mnv0]),
   (c3_cap_retirement_branches daC3 mnv0 "base" "gen_coal" 2001
      (by norm_num [daC3]) (by norm_num [daC3, if_neg strYearCap])).2.2.1 2 9
      (by norm_num [daC3]) (by norm_num [firstYear, mnv0]) rfl⟩

/-- `model_generic` `c_flow_in` under configured input efficiencies: activity
equals the sum of inflows, each multiplied by its input efficiency. -/
theorem mg_flow_in_ok (da : DataHandler) (M : ModelVars) (e : String) (y d h : ℚ)
    (eff : String → ℚ)
    (hef : ∀ p ∈ M.FiE.filter (fun p => p.2 == e),
      da.get_fxe p.2 "input_efficiency" p.1 y = .ok (some (eff p.1))) :
    ModelGeneric.c_flow_in da M e y d h = .ok (.rel
      (((M.FiE.filter (fun p => p.2 == e)).map
        (fun p => M.fin p.1 p.2 y d h * eff p.1)).sum)
      .eq (M.a e y d h)) := by
  unfold ModelGeneric.c_flow_in
  rw [sumE_ok _ _ (fun p => M.fin p.1 p.2 y d h * eff p.1) ?term]
  case term =>
    intro p hp
    rw [hef p hp]
    rfl
  rfl

/-- `model_generic` `c_flow_out` under configured output efficiencies:
activity equals the sum of outflows, each DIVIDED by its output efficiency. -/
theorem mg_flow_out_ok (da : DataHandler) (M : ModelVars) (e : String) (y d h : ℚ)
    (eff : String → ℚ)
    (hef : ∀ p ∈ M.FoE.filter (fun p => p.2 == e),
      da.get_fxe p.2 "output_efficiency" p.1 y = .ok (some (eff p.1))) :
    ModelGeneric.c_flow_out da M e y d h = .ok (.rel
      (((M.FoE.filter (fun p => p.2 == e)).map
        (fun p => M.fout p.1 p.2 y d h / eff p.1)).sum)
      .eq (M.a e y d h)) := by
  unfold ModelGeneric.c_flow_out
  rw [sumE_ok _ _ (fun p => M.fout p.1 p.2 y d h / eff p.1) ?term]
  case term =>
    intro p hp
    rw [hef p hp]
    rfl
  rfl

/-- `model_utils` `c_flow_out` under configured output efficiencies: activity
equals the sum of outflows, each MULTIPLIED by its output efficiency. -/
theorem mu_flow_out_ok (da : DataHandler) (M : ModelVarsN) (n e : String) (y d h : ℚ)
    (eff : String → ℚ)
    (hef : ∀ p ∈ M.FoE.filter (fun p => p.2 == e),
      da.get_fxe p.2 "output_efficiency" p.1 y = .ok (some (eff p.1))) :
    ModelUtils.c_flow_out da M n e y d h = .ok (.rel
      (((M.FoE.filter (fun p => p.2 == e)).map
        (fun p => M.fout n p.1 p.2 y d h * eff p.1)).sum)
      .eq (M.a n e y d h)) := by
  unfold ModelUtils.c_flow_out
  rw [sumE_ok _ _ (fun p => M.fout n p.1 p.2 y d h * eff p.1) ?term]
  case term =>
    intro p hp
    rw [hef p hp]
    rfl
  rfl

/-- `model_utils` `c_flow_in` under configured input efficiencies: same
multiplicative form as the `model_generic` variant. -/
theorem mu_flow_in_ok (da : DataHandler) (M : ModelVarsN) (n e : String) (y d h : ℚ)
    (eff : String → ℚ)
    (hef : ∀ p ∈ M.FiE.filter (fun p => p.2 == e),
      da.get_fxe p.2 "input_efficiency" p.1 y = .ok (some (eff p.1))) :
    ModelUtils.c_flow_in da M n e y d h = .ok (.rel
      (((M.FiE.filter (fun p => p.2 == e)).map
        (fun p => M.fin n p.1 p.2 y d h * eff p.1)).sum)
      .eq (M.a n e y d h)) := by
  unfold ModelUtils.c_flow_in
  rw [sumE_ok _ _ (fun p => M.fin n p.1 p.2 y d h * eff p.1) ?term]
  case term =>
    intro p hp
    rw [hef p hp]
    rfl
  rfl

/-- A store configuring every flow-specific efficiency and share constant at
value 2. -/
def daC5 : DataHandler :=
  { get := fun _ _ _ => none
    get_fxe := fun _ _ _ _ => .ok (some 2)
    get_const := fun _ _ => .ok none
    get_annual := fun _ _ _ => .ok 7
    check_cnf := fun _ p => if p = "enable_capacity" then 1 else 2000 }

/-- C5 counterexample: the claim says the balance generators return
`activity == Σ flow_out / output_efficiency`, but the cited
`model_utils/generic.py` `c_flow_out` (line 69) MULTIPLIES: with one outflow
of value 6 and output efficiency 2 it generates `6 * 2 == activity`, and
`6 * 2 = 12 ≠ 6 / 2`. -/
theorem c5_counterexample :
    ModelUtils.c_flow_out daC5 mnv0 "base" "gen_hydro" 2000 0 1 =
      .ok (.rel 12 .eq (mnv0.a "base" "gen_hydro" 2000 0 1)) ∧
    (12 : ℚ) ≠ 6 / 2 := by
  constructor
  · have h := mu_flow_out_ok daC5 mnv0 "base" "gen_hydro" 2000 0 1 (fun _ => 2)
      (fun _ _ => rfl)
    rw [h]
    norm_num [mnv0]
  · norm_num

/-- C5 (amended): for configured efficiencies, the balance generators return
`activity[e] == Σ_{(f,e)∈FiE} flow_in[f,e] · input_efficiency(e,f)` in both
variants (input efficiency multiplies), while on the output side the
`model_generic/generic_constraints.py` `c_flow_out` divides
(`activity[e] == Σ_{(f,e)∈FoE} flow_out[f,e] / output_efficiency(e,f)`) but
the `model_utils/generic.py` `c_flow_out` multiplies. -/
theorem c5_flow_balance_efficiencies (da : DataHandler) (M : ModelVars) (MN : ModelVarsN)
    (n e : String) (y d h : ℚ) (effIn effOut effInN effOutN : String → ℚ)
    (hIn : ∀ p ∈ M.FiE.filter (fun p => p.2 == e),
      da.get_fxe p.2 "input_efficiency" p.1 y = .ok (some (effIn p.1)))
    (hOut : ∀ p ∈ M.FoE.filter (fun p => p.2 == e),
      da.get_fxe p.2 "output_efficiency" p.1 y = .ok (some (effOut p.1)))
    (hInN : ∀ p ∈ MN.FiE.filter (fun p => p.2 == e),
      da.get_fxe p.2 "input_efficiency" p.1 y = .ok (some (effInN p.1)))
    (hOutN : ∀ p ∈ MN.FoE.filter (fun p => p.2 == e),
      da.get_fxe p.2 "output_efficiency" p.1 y = .ok (some (effOutN p.1))) :
    ModelGeneric.c_flow_in da M e y d h = .ok (.rel
      (((M.FiE.filter (fun p => p.2 == e)).map
        (fun p => M.fin p.1 p.2 y d h * effIn p.1)).sum) .eq (M.a e y d h)) ∧
    ModelGeneric.c_flow_out da M e y d h = .ok (.rel
      (((M.FoE.filter (fun p => p.2 == e)).map
        (fun p => M.fout p.1 p.2 y d h / effOut p.1)).sum) .eq (M.a e y d h)) ∧
    ModelUtils.c_flow_in da MN n e y d h = .ok (.rel
      (((MN.FiE.filter (fun p => p.2 == e)).map
        (fun p => MN.fin n p.1 p.2 y d h * effInN p.1)).sum) .eq (MN.a n e y d h)) ∧
    ModelUtils.c_flow_out da MN n e y d h = .ok (.rel
      (((MN.FoE.filter (fun p => p.2 == e)).map
        (fun p => MN.fout n p.1 p.2 y d h * effOutN p.1)).sum) .eq (MN.a n e y d h)) :=
  ⟨mg_flow_in_ok da M e y d h effIn hIn,
   mg_flow_out_ok da M e y d h effOut hOut,
   mu_flow_in_ok da MN n e y d h effInN hInN,
   mu_flow_out_ok da MN n e y d h effOutN hOutN⟩

/-- Witness for C5 at the concrete store `daC5` (every efficiency 2). -/
theorem c5_flow_balance_efficiencies_witness :
    ModelGeneric.c_flow_in daC5 mvC1 "dem_elec" 2000 0 1 = .ok (.rel
      (((mvC1.FiE.filter (fun p => p.2 == "dem_elec")).map
        (fun p => mvC1.fin p.1 p.2 2000 0 1 * 2)).sum) .eq (mvC1.a "dem_elec" 2000 0 1)) ∧
    ModelGeneric.c_flow_out daC5 mvC1 "gen_hydro" 2000 0 1 = .ok (.rel
      (((mvC1.FoE.filter (fun p => p.2 == "gen_hydro")).map
        (fun p => mvC1.fout p.1 p.2 2000 0 1 / 2)).sum) .eq (mvC1.a "gen_hydro" 2000 0 1)) ∧
    ModelUtils.c_flow_in daC5 mnv0 "base" "dem_elec" 2000 0 1 = .ok (.rel
      (((mnv0.FiE.filter (fun p => p.2 == "dem_elec")).map
        (fun p => mnv0.fin "base" p.1 p.2 2000 0 1 * 2)).sum)
        .eq (mnv0.a "base" "dem_elec" 2000 0 1)) ∧
    ModelUtils.c_flow_out daC5 mnv0 "base" "gen_hydro" 2000 0 1 = .ok (.rel
      (((mnv0.FoE.filter (fun p => p.2 == "gen_hydro")).map
        (fun p => mnv0.fout "base" p.1 p.2 2000 0 1 * 2)).sum)
        .eq (mnv0.a "base" "gen_hydro" 2000 0 1)) :=
  ⟨(c5_flow_balance_efficiencies daC5 mvC1 mnv0 "base" "dem_elec" 2000 0 1
      (fun _ => 2) (fun _ => 2) (fun _ => 2) (fun _ => 2)
      (fun _ _ => rfl) (fun _ _ => rfl) (fun _ _ => rfl) (fun _ _ => rfl)).1,
   (c5_flow_balance_efficiencies daC5 mvC1 mnv0 "base" "gen_hydro" 2000 0 1
      (fun _ => 2) (fun _ => 2) (fun _ => 2) (fun _ => 2)
      (fun _ _ => rfl) (fun _ _ => rfl) (fun _ _ => rfl) (fun _ _ => rfl)).2.1,
   (c5_flow_balance_efficiencies daC5 mvC1 mnv0 "base" "dem_elec" 2000 0 1
      (fun _ => 2) (fun _ => 2) (fun _ => 2) (fun _ => 2)
      (fun _ _ => rfl) (fun _ _ => rfl) (fun _ _ => rfl) (fun _ _ => rfl)).2.2.1,
   (c5_flow_balance_efficiencies daC5 mvC1 mnv0 "base" "gen_hydro" 2000 0 1
      (fun _ => 2) (fun _ => 2) (fun _ => 2) (fun _ => 2)
      (fun _ _ => rfl) (fun _ _ => rfl) (fun _ _ => rfl) (fun _ _ => rfl)).2.2.2⟩

/-- A store configuring every flow-specific share factor at `1/2` (capacity
disabled, nothing else configured). -/
def daC6 : DataHandler :=
  { get := fun _ _ _ => none
    get_fxe := fun _ _ _ _ => .ok (some (1 / 2))
    get_const := fun _ _ => .ok none
    get_annual := fun _ _ _ => .ok 0
    check_cnf := fun _ _ => 0 }

/-- Entity `e1` produces into flows `f1` (value 3) and `f2` (value 7). -/
def mvC6 : ModelVars :=
  { a := fun _ _ _ _ => 0
    ctot := fun _ _ => 0
    cnew := fun _ _ => 0
    cret := fun _ _ => 0
    fin := fun f _ _ _ _ => if f = "f1" then 3 else 7
    fout := fun f _ _ _ _ => if f = "f1" then 3 else 7
    FiE := [("f1", "e1"), ("f2", "e1")]
    FoE := [("f1", "e1"), ("f2", "e1")]
    Y := [2000]
    YALL := [2000]
    D := [0]
    H := [0]
    DL := fun _ _ => 365
    HL := 1
    eHourlyC2A := fun _ _ => 1 }

/-- C6: eleven of the twelve share generators follow the
`value {==,<=,>=} share · total` template, but `c_output_share_max` and
`c_output_share_min` (in both constraint-library variants) return an
EQUALITY, contradicting their own docstrings ("below a maximum share" /
"above a minimum share").  At share `1/2` with outputs 3 and 7:
`c_output_share_max` and `c_output_share_min` both generate
`3 == 1/2 · 10`, while the analogous `c_flow_out_share_max` /
`c_flow_out_share_min` generate `3 <= 1/2 · 3` / `3 >= 1/2 · 3` as the
claim expects. -/
theorem c6_output_share_equality_bug :
    ModelGeneric.c_output_share_max daC6 mvC6 "f1" "e1" 2000 0 0 =
      .ok (.rel 3 .eq (1 / 2 * 10)) ∧
    ModelGeneric.c_output_share_min daC6 mvC6 "f1" "e1" 2000 0 0 =
      .ok (.rel 3 .eq (1 / 2 * 10)) ∧
    ModelGeneric.c_flow_out_share_max daC6 mvC6 "f1" "e1" 2000 0 0 =
      .ok (.rel 3 .le (1 / 2 * 3)) ∧
    ModelGeneric.c_flow_out_share_min daC6 mvC6 "f1" "e1" 2000 0 0 =
      .ok (.rel 3 .ge (1 / 2 * 3)) := by
  refine ⟨?_, ?_, ?_, ?_⟩ <;>
    norm_num [ModelGeneric.c_output_share_max, ModelGeneric.c_output_share_min,
      ModelGeneric.c_flow_out_share_max, ModelGeneric.c_flow_out_share_min,
      ModelGeneric.total_output_e, ModelGeneric.total_outflow_f,
      daC6, mvC6, ok_bind,
      (by decide : ¬ ("f2" : String) = "f1"),
      (by decide : (("f2" : String) == "f1") = false)]

/-- `model_utils` hourly minimum load factor with an unconfigured `lf_min`:
Python evaluates `lf_min * model.ctot[...]` with `lf_min = None` and raises
`TypeError` instead of skipping. -/
theorem mu_cf_min_hour_absent (da : DataHandler) (M : ModelVarsN) (n e : String)
    (y d h : ℚ) (hcap : da.check_cnf e "enable_capacity" ≠ 0)
    (hy : y > da.check_cnf e "enable_year")
    (hc2a : ∃ c, da.get e "capacity_to_activity" y = some c)
    (hlf : da.get e "lf_min" y = none) :
    ModelUtils.c_act_cf_min_hour da M n e y d h = .error .typeError := by
  obtain ⟨c, hc⟩ := hc2a
  simp [ModelUtils.c_act_cf_min_hour, hcap, hy, hc, hlf, numUse, ok_bind, error_bind]

/-- `model_utils` hourly maximum load factor with an unconfigured `lf_max`:
raises `TypeError` instead of skipping. -/
theorem mu_cf_max_hour_absent (da : DataHandler) (M : ModelVarsN) (n e : String)
    (y d h : ℚ) (hcap : da.check_cnf e "enable_capacity" ≠ 0)
    (hy : y > da.check_cnf e "enable_year")
    (hc2a : ∃ c, da.get e "capacity_to_activity" y = some c)
    (hlf : da.get e "lf_max" y = none) :
    ModelUtils.c_act_cf_max_hour da M n e y d h = .error .typeError := by
  obtain ⟨c, hc⟩ := hc2a
  simp [ModelUtils.c_act_cf_max_hour, hcap, hy, hc, hlf, numUse, ok_bind, error_bind]

/-- `model_utils` annual minimum load factor with an unconfigured `lf_min`:
raises `TypeError` (forced first, before `capacity_to_activity`). -/
theorem mu_cf_min_year_absent (da : DataHandler) (M : ModelVarsN) (n e : String)
    (y : ℚ) (hcap : da.check_cnf e "enable_capacity" ≠ 0)
    (hy : y > da.check_cnf e "enable_year")
    (hlf : da.get e "lf_min" y = none) :
    ModelUtils.c_act_cf_min_year da M n e y = .error .typeError := by
  simp [ModelUtils.c_act_cf_min_year, hcap, hy, hlf, numUse, error_bind]

/-- `model_utils` annual maximum load factor with an unconfigured `lf_max`:
raises `TypeError`. -/
theorem mu_cf_max_year_absent (da : DataHandler) (M : ModelVarsN) (n e : String)
    (y : ℚ) (hcap : da.check_cnf e "enable_capacity" ≠ 0)
    (hy : y > da.check_cnf e "enable_year")
    (hlf : da.get e "lf_max" y = none) :
    ModelUtils.c_act_cf_max_year da M n e y = .error .typeError := by
  simp [ModelUtils.c_act_cf_max_year, hcap, hy, hlf, numUse, error_bind]

/-- `model_generic` ramp-up with an unconfigured ramp rate: the rate is
multiplied by `HL` before the (dead) `is None` check, raising `TypeError`. -/
theorem mg_ramp_up_absent (da : DataHandler) (M : ModelVars) (e : String) (y d h : ℚ)
    (hcap : da.check_cnf e "enable_capacity" ≠ 0)
    (hrr : da.get e "ramp_rate" y = none) :
    ModelGeneric.c_act_ramp_up da M e y d h = .error .typeError := by
  simp [ModelGeneric.c_act_ramp_up, hcap, hrr, numUse, error_bind]

/-- `model_generic` ramp-down with an unconfigured ramp rate: raises
`TypeError` like ramp-up. -/
theorem mg_ramp_down_absent (da : DataHandler) (M : ModelVars) (e : String) (y d h : ℚ)
    (hcap : da.check_cnf e "enable_capacity" ≠ 0)
    (hrr : da.get e "ramp_rate" y = none) :
    ModelGeneric.c_act_ramp_down da M e y d h = .error .typeError := by
  simp [ModelGeneric.c_act_ramp_down, hcap, hrr, numUse, error_bind]

/-- A store with capacity enabled, `enable_year` 2000, only
`capacity_to_activity` resolvable (value 1), shares and other parameters
unconfigured. -/
def daC8 : DataHandler :=
  { get := fun _ p _ => if p = "capacity_to_activity" then some 1 else none
    get_fxe := fun _ _ _ _ => .ok none
    get_const := fun _ _ => .ok none
    get_annual := fun _ _ _ => .ok 0
    check_cnf := fun _ p => if p = "enable_capacity" then 1 else 2000 }

/-- C8 counterexample: the claim says every share, ramp and load-factor
generator returns the skip sentinel for an unconfigured parameter, but the
cited `model_utils/generic.py` `c_act_cf_min_hour`, for a capacity-enabled
entity past its enable year with `lf_min` unconfigured, raises `TypeError`
(Python multiplies `None`), which is not the skip sentinel. -/
theorem c8_counterexample :
    ModelUtils.c_act_cf_min_hour daC8 mnv0 "base" "gen_hydro" 2001 0 0 =
      .error .typeError ∧
    ModelUtils.c_act_cf_min_hour daC8 mnv0 "base" "gen_hydro" 2001 0 0 ≠ .ok .skip := by
  have h := mu_cf_min_hour_absent daC8 mnv0 "base" "gen_hydro" 2001 0 0
    (by norm_num [daC8]) (by norm_num [daC8, if_neg strYearCap])
    ⟨1, rfl⟩
    (by norm_num [daC8, if_neg (by decide : ¬ ("lf_min" : String) = "capacity_to_activity")])
  exact ⟨h, by rw [h]; exact fun hc => Except.noConfusion hc⟩

/-- C8 (amended): for an unconfigured (absent/empty) parameter, all twelve
share generators and the `model_utils` ramp generators return the skip
sentinel without raising (the ramp generators also skip when the configured
rate is `>= 1`); the load-factor generators (hourly and annual, min and max)
instead raise a `TypeError` when the load factor is unconfigured, and the
`model_generic` ramp generators — which multiply the rate by the hour-slice
length before their dead `None` check — likewise raise for an unconfigured
rate (skipping only when `rate · HL >= 1`). -/
theorem c8_skip_or_raise (da : DataHandler) (M : ModelVars) (MN : ModelVarsN)
    (n f e : String) (y d h : ℚ)
    (hcap : da.check_cnf e "enable_capacity" ≠ 0)
    (hy : y > da.check_cnf e "enable_year") :
    (da.get_fxe e "flow_in_share_equal" f y = .ok none →
      ModelGeneric.c_flow_in_share_equal da M f e y d h = .ok .skip) ∧
    (da.get_fxe e "flow_in_share_max" f y = .ok none →
      ModelGeneric.c_flow_in_share_max da M f e y d h = .ok .skip) ∧
    (da.get_fxe e "flow_in_share_min" f y = .ok none →
      ModelGeneric.c_flow_in_share_min da M f e y d h = .ok .skip) ∧
    (da.get_fxe e "flow_out_share_equal" f y = .ok none →
      ModelGeneric.c_flow_out_share_equal da M f e y d h = .ok .skip) ∧
    (da.get_fxe e "flow_out_share_max" f y = .ok none →
      ModelGeneric.c_flow_out_share_max da M f e y d h = .ok .skip) ∧
    (da.get_fxe e "flow_out_share_min" f y = .ok none →
      ModelGeneric.c_flow_out_share_min da M f e y d h = .ok .skip) ∧
    (da.get_fxe e "input_share_equal" f y = .ok none →
      ModelGeneric.c_input_share_equal da M f e y d h = .ok .skip) ∧
    (da.get_fxe e "input_share_max" f y = .ok none →
      ModelGeneric.c_input_share_max da M f e y d h = .ok .skip) ∧
    (da.get_fxe e "input_share_min" f y = .ok none →
      ModelGeneric.c_input_share_min da M f e y d h = .ok .skip) ∧
    (da.get_fxe e "output_share_equal" f y = .ok none →
      ModelGeneric.c_output_share_equal da M f e y d h = .ok .skip) ∧
    (da.get_fxe e "output_share_max" f y = .ok none →
      ModelGeneric.c_output_share_max da M f e y d h = .ok .skip) ∧
    (da.get_fxe e "output_share_min" f y = .ok none →
      ModelGeneric.c_output_share_min da M f e y d h = .ok .skip) ∧
    (da.get e "ramp_rate" y = none →
      ModelUtils.c_act_ramp_up da MN n e y d h = .ok .skip ∧
      ModelUtils.c_act_ramp_down da MN n e y d h = .ok .skip) ∧
    (∀ rr, da.get e "ramp_rate" y = some rr → rr ≥ 1 →
      ModelUtils.c_act_ramp_up da MN n e y d h = .ok .skip ∧
      ModelUtils.c_act_ramp_down da MN n e y d h = .ok .skip) ∧
    (da.get e "ramp_rate" y = none →
      ModelGeneric.c_act_ramp_up da M e y d h = .error .typeError ∧
      ModelGeneric.c_act_ramp_down da M e y d h = .error .typeError) ∧
    ((∃ c, da.get e "capacity_to_activity" y = some c) →
      (da.get e "lf_min" y = none →
        ModelUtils.c_act_cf_min_hour da MN n e y d h = .error .typeError) ∧
      (da.get e "lf_max" y = none →
        ModelUtils.c_act_cf_max_hour da MN n e y d h = .error .typeError)) ∧
    (da.get e "lf_min" y = none →
      ModelUtils.c_act_cf_min_year da MN n e y = .error .typeError) ∧
    (da.get e "lf_max" y = none →
      ModelUtils.c_act_cf_max_year da MN n e y = .error .typeError) := by
  refine ⟨fun hs => ?_, fun hs => ?_, fun hs => ?_, fun hs => ?_, fun hs => ?_, fun hs => ?_,
    fun hs => ?_, fun hs => ?_, fun hs => ?_, fun hs => ?_, fun hs => ?_, fun hs => ?_,
    fun hrr => ⟨?_, ?_⟩, fun rr hrr h1 => ⟨?_, ?_⟩,
    fun hrr => ⟨mg_ramp_up_absent da M e y d h hcap hrr,
      mg_ramp_down_absent da M e y d h hcap hrr⟩,
    fun hc2a => ⟨fun hlf => mu_cf_min_hour_absent da MN n e y d h hcap hy hc2a hlf,
      fun hlf => mu_cf_max_hour_absent da MN n e y d h hcap hy hc2a hlf⟩,
    fun hlf => mu_cf_min_year_absent da MN n e y hcap hy hlf,
    fun hlf => mu_cf_max_year_absent da MN n e y hcap hy hlf⟩
  · simp [ModelGeneric.c_flow_in_share_equal, hs, ok_bind]
  · simp [ModelGeneric.c_flow_in_share_max, hs, ok_bind]
  · simp [ModelGeneric.c_flow_in_share_min, hs, ok_bind]
  · simp [ModelGeneric.c_flow_out_share_equal, hs, ok_bind]
  · simp [ModelGeneric.c_flow_out_share_max, hs, ok_bind]
  · simp [ModelGeneric.c_flow_out_share_min, hs, ok_bind]
  · simp [ModelGeneric.c_input_share_equal, hs, ok_bind]
  · simp [ModelGeneric.c_input_share_max, hs, ok_bind]
  · simp [ModelGeneric.c_input_share_min, hs, ok_bind]
  · simp [ModelGeneric.c_output_share_equal, hs, ok_bind]
  · simp [ModelGeneric.c_output_share_max, hs, ok_bind]
  · simp [ModelGeneric.c_output_share_min, hs, ok_bind]
  · simp [ModelUtils.c_act_ramp_up, hcap, hy, hrr]
  · simp [ModelUtils.c_act_ramp_down, hcap, hy, hrr]
  · simp [ModelUtils.c_act_ramp_up, hcap, hy, hrr, h1]
  · simp [ModelUtils.c_act_ramp_down, hcap, hy, hrr, h1]

/-- Witness for C8 at the concrete store `daC8` (shares and load factors
unconfigured, `capacity_to_activity` = 1) and `daC6` (ramp rate
unconfigured is also covered by `daC8.get`). -/
theorem c8_skip_or_raise_witness :
    ModelGeneric.c_flow_in_share_equal daC8 mvC1 "elecsupply" "dem_elec" 2001 0 0 =
      .ok .skip ∧
    ModelUtils.c_act_ramp_up daC8 mnv0 "base" "gen_hydro" 2001 0 0 = .ok .skip ∧
    ModelGeneric.c_act_ramp_up daC8 mvC1 "gen_hydro" 2001 0 0 = .error .typeError ∧
    ModelUtils.c_act_cf_min_hour daC8 mnv0 "base" "gen_hydro" 2001 0 0 =
      .error .typeError ∧
    ModelUtils.c_act_cf_max_year daC8 mnv0 "base" "gen_hydro" 2001 = .error .typeError := by
  have h := c8_skip_or_raise daC8 mvC1 mnv0 "base" "elecsupply" "dem_elec" 2001 0 0
    (by norm_num [daC8]) (by norm_num [daC8, if_neg strYearCap])
  have h2 := c8_skip_or_raise daC8 mvC1 mnv0 "base" "elecsupply" "gen_hydro" 2001 0 0
    (by norm_num [daC8]) (by norm_num [daC8, if_neg strYearCap])
  obtain ⟨_, _, _, _, _, _, _, _, _, _, _, _, r13, _, r15, r16, _, r18⟩ := h2
  have hrr : daC8.get "gen_hydro" "ramp_rate" 2001 = none := by
    norm_num [daC8, if_neg (by decide : ¬ ("ramp_rate" : String) = "capacity_to_activity")]
  refine ⟨h.1 rfl, (r13 hrr).1, (r15 hrr).1, ?_, ?_⟩
  · exact (r16 ⟨1, rfl⟩).1
      (by norm_num [daC8, if_neg (by decide : ¬ ("lf_min" : String) = "capacity_to_activity")])
  · exact r18
      (by norm_num [daC8, if_neg (by decide : ¬ ("lf_max" : String) = "capacity_to_activity")])

/-- The value carried by a successful computation (0 for an exception; used
only to state fixed values compactly). -/
def exVal : Except PyErr ℚ → ℚ
  | .ok v => v
  | .error _ => 0

/-- Characterization of the per-entity `init_activity` loop: it fixes exactly
the years up to and including the enable year, at value
`actual_activity / (365*24)` when the year is both the first year and the
enable year, and at `0` otherwise. -/
theorem init_activity_fix_spec (da : DataHandler) (e : String) (y0 : ℚ) :
    ∀ (years : List ℚ) (fixes : List (ℚ × ℚ)),
      ModelUtils.init_activity_fix da e y0 years = .ok fixes →
      fixes.map Prod.fst = yearsUpTo (da.check_cnf e "enable_year") years ∧
      ∀ p ∈ fixes, p.2 =
        if p.1 = y0 ∧ p.1 = da.check_cnf e "enable_year"
        then exVal (da.get_annual e "actual_activity" p.1) / (365 * 24) else 0 := by
  intro years
  induction years with
  | nil =>
    intro fixes hf
    simp only [ModelUtils.init_activity_fix] at hf
    injection hf with hfx
    subst hfx
    simp [yearsUpTo]
  | cons y ys ih =>
    intro fixes hf
    simp only [ModelUtils.init_activity_fix] at hf
    by_cases hcond : y = y0 ∧ y = da.check_cnf e "enable_year"
    · rw [if_pos hcond] at hf
      cases hann : da.get_annual e "actual_activity" y with
      | error err =>
        simp only [hann, error_bind] at hf
        exact Except.noConfusion hf
      | ok v =>
        simp only [hann, ok_bind] at hf
        rw [if_pos hcond.2] at hf
        injection hf with hfx
        subst hfx
        refine ⟨by simp [yearsUpTo, hcond.2], ?_⟩
        intro p hp
        rcases List.mem_singleton.mp hp with rfl
        have hc : ((y, v / (365 * 24)).1 = y0 ∧
            (y, v / (365 * 24)).1 = da.check_cnf e "enable_year") := hcond
        rw [if_pos hc, hann]
        rfl
    · rw [if_neg hcond, ok_bind] at hf
      by_cases hbreak : y = da.check_cnf e "enable_year"
      · rw [if_pos hbreak] at hf
        injection hf with hfx
        subst hfx
        refine ⟨by simp [yearsUpTo, hbreak], ?_⟩
        intro p hp
        rcases List.mem_singleton.mp hp with rfl
        have hc : ¬ ((y, (0 : ℚ)).1 = y0 ∧
            (y, (0 : ℚ)).1 = da.check_cnf e "enable_year") := hcond
        rw [if_neg hc]
      · rw [if_neg hbreak] at hf
        cases hrec : ModelUtils.init_activity_fix da e y0 ys with
        | error err =>
          simp only [hrec, error_bind] at hf
          exact Except.noConfusion hf
        | ok rest =>
          simp only [hrec, ok_bind] at hf
          injection hf with hfx
          subst hfx
          obtain ⟨h1, h2⟩ := ih rest hrec
          refine ⟨by simp [yearsUpTo, hbreak, h1], ?_⟩
          intro p hp
          rcases List.mem_cons.mp hp with rfl | hp2
          · have hc : ¬ ((y, (0 : ℚ)).1 = y0 ∧
                (y, (0 : ℚ)).1 = da.check_cnf e "enable_year") := hcond
            rw [if_neg hc]
          · exact h2 p hp2

/-- Characterization of the `init_capacity` year loop: it fixes exactly the
years up to and including the enable year; `cnew` and `cret` to 0 throughout,
`ctot` to 0 before the enable year and to the historical capacity at it. -/
theorem capacity_fix_loop_spec (enable_year cap : ℚ) :
    ∀ years : List ℚ,
      (ModelUtils.capacity_fix_loop enable_year cap years).map Prod.fst =
        yearsUpTo enable_year years ∧
      ∀ q ∈ ModelUtils.capacity_fix_loop enable_year cap years,
        q.2.1 = 0 ∧ q.2.2.1 = 0 ∧ q.2.2.2 = if q.1 = enable_year then cap else 0 := by
  intro years
  induction years with
  | nil => exact ⟨rfl, by intro q hq; cases hq⟩
  | cons y ys ih =>
    obtain ⟨h1, h2⟩ := ih
    by_cases hy : y = enable_year
    · constructor
      · simp only [ModelUtils.capacity_fix_loop, yearsUpTo, if_pos hy]
        rfl
      · intro q hq
        simp only [ModelUtils.capacity_fix_loop, if_pos hy] at hq
        rcases List.mem_singleton.mp hq with rfl
        refine ⟨rfl, rfl, ?_⟩
        have hc : ((y, (0 : ℚ), (0 : ℚ), cap).1 = enable_year) := hy
        rw [if_pos hc]
    · constructor
      · simp only [ModelUtils.capacity_fix_loop, yearsUpTo, if_neg hy, List.map_cons]
        rw [h1]
      · intro q hq
        simp only [ModelUtils.capacity_fix_loop, if_neg hy] at hq
        rcases List.mem_cons.mp hq with rfl | hq2
        · refine ⟨rfl, rfl, ?_⟩
          have hc : ¬ ((y, (0 : ℚ), (0 : ℚ), (0 : ℚ)).1 = enable_year) := hy
          rw [if_neg hc]
        · exact h2 q hq2

/-- `init_capacity_fix` for a capacity-enabled entity with a present
historical capacity reduces to the year loop. -/
theorem init_capacity_fix_ok (da : DataHandler) (e : String) (years : List ℚ) (cap : ℚ)
    (hcap : da.check_cnf e "enable_capacity" ≠ 0)
    (hann : da.get_annual e "actual_capacity" (da.check_cnf e "enable_year") = .ok cap) :
    ModelUtils.init_capacity_fix da e years =
      .ok (ModelUtils.capacity_fix_loop (da.check_cnf e "enable_year") cap years) := by
  simp [ModelUtils.init_capacity_fix, hcap, hann, ok_bind]

/-- Years strictly after the enable year are NOT visited: the loop prefix is
`pre ++ [enable_year]` whenever the year list is `pre ++ enable_year :: post`
with the enable year not in `pre`. -/
theorem yearsUpTo_drops_later (enable_year : ℚ) :
    ∀ (pre post : List ℚ), enable_year ∉ pre →
      yearsUpTo enable_year (pre ++ enable_year :: post) = pre ++ [enable_year] := by
  intro pre
  induction pre with
  | nil =>
    intro post _
    simp [yearsUpTo]
  | cons a pre ih =>
    intro post hmem
    have ha : ¬ a = enable_year := fun h => hmem (List.mem_cons.mpr (Or.inl h.symm))
    have hpre : enable_year ∉ pre := fun h => hmem (List.mem_cons_of_mem a h)
    simp only [List.cons_append, yearsUpTo, if_neg ha]
    exact congrArg (a :: ·) (ih post hpre)

/-- A store with `enable_year` 2010 (later than the first modeled year 2000),
capacity enabled, and historical annual values 8760. -/
def daC4 : DataHandler :=
  { get := fun _ _ _ => none
    get_fxe := fun _ _ _ _ => .ok none
    get_const := fun _ _ => .ok none
    get_annual := fun _ _ _ => .ok 8760
    check_cnf := fun _ p => if p = "enable_capacity" then 1 else 2010 }

/-- C4 counterexample: the claim says activity is fixed "at the first modeled
year (or the entity-specific enable year)" to `actual_activity / (365*24)`;
but for an entity with enable year 2010 ≠ first year 2000 and
`actual_activity = 8760` (so `8760 / (365*24) = 1`), the loop fixes activity
to `0` at BOTH years — the enable-year slot gets `0`, not `1`. -/
theorem c4_counterexample :
    ModelUtils.init_activity_fix daC4 "dem_elec" 2000 [2000, 2010] =
      .ok [(2000, 0), (2010, 0)] ∧
    (8760 : ℚ) / (365 * 24) = 1 ∧ ¬ ((0 : ℚ) = 1) := by
  refine ⟨?_, by norm_num, by norm_num⟩
  norm_num [ModelUtils.init_activity_fix, daC4, if_neg strYearCap, ok_bind]

/-- C4 (amended): per entity, the `model_utils/generic.py` initialization
helpers fix exactly the years up to and including the entity's enable year
and leave all later years unfixed; `activity` is fixed to
`actual_activity / (365*24)` only at a year that is both the first modeled
year and the enable year, and to `0` at every other visited year;
for capacity-enabled entities `capacity_new`/`capacity_retired` are fixed to
`0` throughout the visited years and `capacity_total` to `0` before the
enable year and to the historical `actual_capacity` at the enable year. -/
theorem c4_initialisation_fixes (da : DataHandler) (e : String) (y0 cap : ℚ)
    (years : List ℚ) (fixes : List (ℚ × ℚ)) :
    (ModelUtils.init_activity_fix da e y0 years = .ok fixes →
      fixes.map Prod.fst = yearsUpTo (da.check_cnf e "enable_year") years ∧
      ∀ p ∈ fixes, p.2 =
        if p.1 = y0 ∧ p.1 = da.check_cnf e "enable_year"
        then exVal (da.get_annual e "actual_activity" p.1) / (365 * 24) else 0) ∧
    (da.check_cnf e "enable_capacity" ≠ 0 →
      da.get_annual e "actual_capacity" (da.check_cnf e "enable_year") = .ok cap →
      ModelUtils.init_capacity_fix da e years =
        .ok (ModelUtils.capacity_fix_loop (da.check_cnf e "enable_year") cap years) ∧
      (ModelUtils.capacity_fix_loop (da.check_cnf e "enable_year") cap years).map
        Prod.fst = yearsUpTo (da.check_cnf e "enable_year") years ∧
      ∀ q ∈ ModelUtils.capacity_fix_loop (da.check_cnf e "enable_year") cap years,
        q.2.1 = 0 ∧ q.2.2.1 = 0 ∧
        q.2.2.2 = if q.1 = da.check_cnf e "enable_year" then cap else 0) ∧
    (∀ (pre post : List ℚ), da.check_cnf e "enable_year" ∉ pre →
      yearsUpTo (da.check_cnf e "enable_year")
          (pre ++ da.check_cnf e "enable_year" :: post) =
        pre ++ [da.check_cnf e "enable_year"]) :=
  ⟨fun hf => init_activity_fix_spec da e y0 years fixes hf,
   fun hcap hann =>
     ⟨init_capacity_fix_ok da e years cap hcap hann,
      (capacity_fix_loop_spec (da.check_cnf e "enable_year") cap years).1,
      (capacity_fix_loop_spec (da.check_cnf e "enable_year") cap years).2⟩,
   yearsUpTo_drops_later (da.check_cnf e "enable_year")⟩

/-- Witness for C4 at the concrete store `daC2` (enable year = first year =
2000, historical values 7). -/
theorem c4_initialisation_fixes_witness :
    ([((2000 : ℚ), (7 : ℚ) / (365 * 24))].map Prod.fst =
      yearsUpTo (daC2.check_cnf "dem_elec" "enable_year") [2000, 2001] ∧
      ∀ p ∈ [((2000 : ℚ), (7 : ℚ) / (365 * 24))], p.2 =
        if p.1 = 2000 ∧ p.1 = daC2.check_cnf "dem_elec" "enable_year"
        then exVal (daC2.get_annual "dem_elec" "actual_activity" p.1) / (365 * 24)
        else 0) ∧
    (ModelUtils.init_capacity_fix daC2 "gen_hydro" [2000, 2001] =
      .ok (ModelUtils.capacity_fix_loop (daC2.check_cnf "gen_hydro" "enable_year") 7
        [2000, 2001]) ∧
      (ModelUtils.capacity_fix_loop (daC2.check_cnf "gen_hydro" "enable_year") 7
        [2000, 2001]).map Prod.fst =
        yearsUpTo (daC2.check_cnf "gen_hydro" "enable_year") [2000, 2001] ∧
      ∀ q ∈ ModelUtils.capacity_fix_loop (daC2.check_cnf "gen_hydro" "enable_year") 7
          [2000, 2001],
        q.2.1 = 0 ∧ q.2.2.1 = 0 ∧
        q.2.2.2 = if q.1 = daC2.check_cnf "gen_hydro" "enable_year" then 7 else 0) ∧
    yearsUpTo (daC2.check_cnf "gen_hydro" "enable_year")
        ([] ++ daC2.check_cnf "gen_hydro" "enable_year" :: [2001]) =
      [] ++ [daC2.check_cnf "gen_hydro" "enable_year"] := by
  have hact : ModelUtils.init_activity_fix daC2 "dem_elec" 2000 [2000, 2001] =
      .ok [(2000, (7 : ℚ) / (365 * 24))] := by
    norm_num [ModelUtils.init_activity_fix, daC2, if_neg strYearCap, ok_bind]
  have h := c4_initialisation_fixes daC2 "dem_elec" 2000 7 [2000, 2001]
    [((2000 : ℚ), (7 : ℚ) / (365 * 24))]
  have h2 := c4_initialisation_fixes daC2 "gen_hydro" 2000 7 [2000, 2001]
    [((2000 : ℚ), (7 : ℚ) / (365 * 24))]
  exact ⟨h.1 hact,
    h2.2.1 (by norm_num [daC2]) (by norm_num [daC2, if_neg strYearCap]),
    h2.2.2 [] [2001] (List.not_mem_nil _)⟩

/-- `gen_utils/k_clustering.py`, `get_demand_shape` (lines 113-115): the
uncorrected clustered annual total `elec_supplied_y`, accumulated over the
representative days as `sum(prof_demand_d_h[i, :]) * 365 * k_ratio_y_d[y][i]
/ 1000`.  The centroid matrix rows are paired here with their occurrence
ratios. -/
def elec_supplied_y (k_ratio : List ℚ) (prof_demand : List (List ℚ)) : ℚ :=
  ((prof_demand.zip k_ratio).map (fun pr => pr.1.sum * 365 * pr.2 / 1000)).sum

/-- `get_demand_shape` line 116: `hist_prof_ratio_y = hist_elec_demand[y] /
elec_supplied_y` — an UNGUARDED division: the source has no check that the
clustered total is nonzero (with numpy floats a zero total silently yields
`inf`/`nan` rather than raising; in this exact embedding `ℚ`-division by
zero yields 0 — in neither semantics is a distinct guarded error raised). -/
def hist_prof_ratio_y (hist : ℚ) (k_ratio : List ℚ) (prof_demand : List (List ℚ)) : ℚ :=
  hist / elec_supplied_y k_ratio prof_demand

/-- `get_demand_shape` line 117: `demand_y_d_h[y] = prof_demand_d_h *
hist_prof_ratio_y` — every hour of every representative day is scaled by the
one common correction ratio. -/
def demand_y_d_h (hist : ℚ) (k_ratio : List ℚ) (prof_demand : List (List ℚ)) :
    List (List ℚ) :=
  prof_demand.map (fun row =>
    row.map (fun x => x * hist_prof_ratio_y hist k_ratio prof_demand))

/-- The weighted annual sum of a representative-day demand matrix:
`Σ_day occurrence_ratio[day] · 365 · Σ_hour demand[day, hour]`. -/
def weighted_annual (k_ratio : List ℚ) (demand : List (List ℚ)) : ℚ :=
  ((demand.zip k_ratio).map (fun pr => pr.2 * 365 * pr.1.sum)).sum

/-- C9: the demand-correction step is NOT guarded against a zero uncorrected
clustered total.  For the one-day profile `[[1, -1]]` with occurrence ratio 1
and historical total 5, the clustered total is exactly 0, yet the code
performs the division and the scaling and returns a demand matrix — no
ClusteringDegenerate-style error exists anywhere in the computation (its
return type admits none); with numpy floats the same input silently produces
`inf`/`nan` values instead of a distinct guarded error. -/
theorem c9_unguarded_zero_total :
    elec_supplied_y [1] [[1, -1]] = 0 ∧
    demand_y_d_h 5 [1] [[1, -1]] = [[0, 0]] := by
  constructor
  · norm_num [elec_supplied_y]
  · norm_num [demand_y_d_h, hist_prof_ratio_y, elec_supplied_y]
    rfl

/-- Scaling every element of a list multiplies its sum. -/
theorem sum_map_mul_const (l : List ℚ) (c : ℚ) :
    (l.map (fun x => x * c)).sum = l.sum * c := by
  induction l with
  | nil => simp
  | cons x xs ih => simp [ih, add_mul]

/-- Pulling the common correction factor out of the weighted annual sum. -/
theorem weighted_scale (l : List (List ℚ × ℚ)) (r : ℚ) :
    (l.map (fun pr => pr.2 * 365 * (pr.1.sum * r))).sum
      = (l.map (fun pr => pr.1.sum * 365 * pr.2 / 1000)).sum * (1000 * r) := by
  induction l with
  | nil => simp
  | cons x xs ih =>
    simp only [List.map_cons, List.sum_cons, ih]
    ring

/-- C10 counterexample: with one representative day `[[1]]`, ratio 1 and
historical total 1, the corrected demand's weighted annual sum is 1000 — a
factor 1000 away from the claimed "equal to the historical annual total
(within 1e-6 relative tolerance)". -/
theorem c10_counterexample :
    weighted_annual [1] (demand_y_d_h 1 [1] [[1]]) = 1000 ∧
    ¬ (|weighted_annual [1] (demand_y_d_h 1 [1] [[1]]) - 1| ≤ 1 / 1000000) := by
  have h : weighted_annual [1] (demand_y_d_h 1 [1] [[1]]) = 1000 := by
    norm_num [weighted_annual, demand_y_d_h, hist_prof_ratio_y, elec_supplied_y]
  refine ⟨h, ?_⟩
  rw [h]
  norm_num

/-- C10 (amended): for every nonzero uncorrected clustered total, the
corrected demand satisfies `Σ_day ratio[day] · 365 · Σ_hour demand[day,hour]
= 1000 · historical_annual_total` EXACTLY (in exact arithmetic): the common
correction ratio makes the weighted annual sum match the historical total up
to the factor 1000 that the code introduces by dividing the clustered total
by 1000 (a unit conversion) while the weighted sum of the returned demand
carries no such division. -/
theorem c10_weighted_total (hist : ℚ) (k_ratio : List ℚ) (prof : List (List ℚ))
    (hnz : elec_supplied_y k_ratio prof ≠ 0) :
    weighted_annual k_ratio (demand_y_d_h hist k_ratio prof) = 1000 * hist := by
  have hzip : (demand_y_d_h hist k_ratio prof).zip k_ratio
      = (prof.zip k_ratio).map (fun pr =>
          (pr.1.map (fun x => x * hist_prof_ratio_y hist k_ratio prof), pr.2)) := by
    rw [demand_y_d_h, List.zip_map_left]
    rfl
  rw [weighted_annual, hzip, List.map_map]
  have hcongr : ((prof.zip k_ratio).map ((fun pr : List ℚ × ℚ => pr.2 * 365 * pr.1.sum) ∘
      (fun pr : List ℚ × ℚ =>
        (pr.1.map (fun x => x * hist_prof_ratio_y hist k_ratio prof), pr.2)))) =
      (prof.zip k_ratio).map (fun pr =>
        pr.2 * 365 * (pr.1.sum * hist_prof_ratio_y hist k_ratio prof)) := by
    refine List.map_congr_left ?_
    intro pr _
    simp [Function.comp, sum_map_mul_const]
  rw [hcongr, weighted_scale]
  show elec_supplied_y k_ratio prof * (1000 * hist_prof_ratio_y hist k_ratio prof)
    = 1000 * hist
  rw [hist_prof_ratio_y]
  field_simp

/-- Witness for C10: one representative day, ratio 1, historical total 2;
the weighted annual sum of the corrected demand is `1000 · 2`. -/
theorem c10_weighted_total_witness :
    weighted_annual [1] (demand_y_d_h 2 [1] [[1]]) = 1000 * 2 :=
  c10_weighted_total 2 [1] [[1]] (by norm_num [elec_supplied_y])

end Restore
